import Mathlib

/-!
# Verification of the community-zipcodes census pipeline

A shallow embedding, in Lean 4, of the core of the ModelEarth community-zipcodes
repository: the population engine (`populator/db_zip_populator.py`,
`populator/database_populator.py`), the export engine
(`exporter/duck_db_exporter.py`) and the validator
(`exporter/data_exporter_validation_test.py`, `.github/scripts/run_validation_test.py`).

Modelling conventions:
* The DuckDB store is a record of the `DimZipCode` dimension rows, the `DataEntry`
  fact rows, and the next value of the `entryid_seq` sequence.
* Numeric API fields (`ESTAB`, `EMP`, `PAYANN`) are carried as `Int` (the Python
  code carries them as JSON strings that DuckDB's CSV auto-detection parses into
  the `INTEGER` columns of `DataEntry`).
* `requests.get` is an oracle `fetch : Nat → ApiResp` giving the response of each
  attempt; the store, file system and sleeping are explicit.  The per-attempt
  sleep durations, the request URLs and whether any network request was issued
  are recorded in the result for observability; the Python code prints/sleeps
  at the corresponding places.
* Python's `str.strip()` is modelled by the computable `strip`, and `ORDER BY GeoID`
  (byte-lexicographic on UTF-8 in DuckDB) by an insertion sort under
  codepoint-lexicographic order, which agrees with byte order on valid UTF-8.
-/

namespace CommunityZipcodes

/-! ## Data model (`database_populator.py`, `_create_tables`) -/

/-- One row of the `DimZipCode` dimension table. -/
structure ZipRow where
  geoId : String
  city : Option String
  state : Option String
  deriving DecidableEq

/-- One fact row as built by `ZipPopulator._create_row`, before the surrogate
`EntryID` is attached by `DatabasePopulator.insert_data_entries`. -/
structure DataRow where
  geoId : String
  naicsCode : String
  year : Nat
  establishments : Int
  employees : Int
  payroll : Int
  industryLevel : Nat
  deriving DecidableEq

/-- One row of the `DataEntry` fact table (with its `EntryID`). -/
structure FactRow where
  entryId : Nat
  geoId : String
  naicsCode : String
  year : Nat
  establishments : Int
  employees : Int
  payroll : Int
  industryLevel : Nat
  deriving DecidableEq

/-- The per-year DuckDB store: the geography dimension, the fact table and the
current value of the `entryid_seq` sequence.  (`DimNaics` and `DimYear` are not
read by any of the claims and are omitted.) -/
structure Store where
  dimZipCode : List ZipRow
  facts : List FactRow
  nextId : Nat
  deriving DecidableEq

/-- One parsed row of a Census API JSON response, in the order requested by the
populator: `ZIPCODE, <revision>, ESTAB, EMP, PAYANN` (`line[0]` … `line[4]`). -/
structure Line where
  zipcode : String
  naics : String
  estab : Int
  emp : Int
  payann : Int
  deriving DecidableEq

/-- An HTTP response from the Census API: status code and parsed JSON rows
(the first row is the header row). -/
structure ApiResp where
  status : Nat
  data : List Line
  deriving DecidableEq

/-! ## Remote data fetcher (`db_zip_populator.py`) -/

/-- `ZipPopulator._naics_year_selector`. -/
def naicsYearSelector (year : Nat) : String :=
  if year ≥ 2000 ∧ year ≤ 2002 then "NAICS1997"
  else if year ≥ 2003 ∧ year ≤ 2007 then "NAICS2002"
  else if year ≥ 2008 ∧ year ≤ 2011 then "NAICS2007"
  else if year ≥ 2012 ∧ year ≤ 2016 then "NAICS2012"
  else "NAICS2017"

/-- `self.base_url` of `ZipPopulator`. -/
def baseUrl : String := "https://api.census.gov/data"

/-- The sector standardization in `_get_response_data`: sector `"0"` becomes `"00"`. -/
def normSector (sector : String) : String :=
  if sector = "0" then "00" else sector

/-- The request URL built by `_get_response_data`: the `zbp` URL, overridden by
the `cbp` URL for years after 2018. -/
def requestUrl (year : Nat) (sector key : String) : String :=
  let code := naicsYearSelector year
  let url := baseUrl ++ "/" ++ toString year ++ "/zbp?get=ZIPCODE," ++ code ++
    ",ESTAB,EMP,PAYANN&for=zip%20code:*&" ++ code ++ "=" ++ sector ++ "&key=" ++ key
  if year > 2018 then
    baseUrl ++ "/" ++ toString year ++ "/cbp?get=ZIPCODE," ++ code ++
      ",ESTAB,EMP,PAYANN&for=zip%20code:*&" ++ code ++ "=" ++ sector ++ "&key=" ++ key
  else url

/-- The URL shape of §6 of the spec,
`GET {endpoint}/{year}/...` with an explicit endpoint and revision key; used to
state what `requestUrl` selects. -/
def censusUrl (endpoint code : String) (year : Nat) (sector key : String) : String :=
  baseUrl ++ "/" ++ toString year ++ "/" ++ endpoint ++ "?get=ZIPCODE," ++ code ++
    ",ESTAB,EMP,PAYANN&for=zip%20code:*&" ++ code ++ "=" ++ sector ++ "&key=" ++ key

/-- `DatabasePopulator.data_for_year_and_sector_exists`:
`SELECT EXISTS(SELECT 1 FROM DataEntry WHERE Year = ? AND NaicsCode = ?)`. -/
def data_for_year_and_sector_exists (s : Store) (year : Nat) (sector : String) : Bool :=
  s.facts.any (fun f => f.year == year && f.naicsCode == sector)

/-- The result of `_get_response_data`: the data and status code it returns,
plus the recorded back-off sleeps, the URLs requested, and whether any network
request was issued at all. -/
structure FetchResult where
  data : List Line
  status : Nat
  delays : List Nat
  urls : List String
  networked : Bool
  deriving DecidableEq

/-- The body of `_get_response_data` after the existence check.  The Python
recursion carries the 1-based `attempt` counter and retries on HTTP 429 while
`attempt <= 5`; we carry, in addition, the structurally decreasing count
`k = 6 - attempt` of retries that are still allowed (`attempt ≤ 5 ↔ k ≥ 1`,
so the two guards coincide for every attempt). -/
def getResponseDataAux (s : Store) (fetch : Nat → ApiResp) (key : String) :
    Nat → String → Nat → Nat → FetchResult
  | k, sector, year, attempt =>
    if data_for_year_and_sector_exists s year sector then
      { data := [], status := 304, delays := [], urls := [], networked := false }
    else
      let sector2 := normSector sector
      let url := requestUrl year sector2 key
      let resp := fetch attempt
      if resp.status = 429 then
        match k with
        | k' + 1 =>
          let rest := getResponseDataAux s fetch key k' sector2 year (attempt + 1)
          { data := rest.data, status := rest.status, delays := 2 ^ attempt :: rest.delays,
            urls := url :: rest.urls, networked := true }
        | 0 =>
          { data := [], status := 429, delays := [], urls := [url], networked := true }
      else if resp.status = 200 then
        { data := resp.data, status := 200, delays := [], urls := [url], networked := true }
      else
        { data := [], status := resp.status, delays := [], urls := [url], networked := true }

/-- `ZipPopulator._get_response_data` called with `attempt = 1` (its default),
as every caller in the repository does. -/
def get_response_data (s : Store) (fetch : Nat → ApiResp) (key : String)
    (sector : String) (year : Nat) : FetchResult :=
  getResponseDataAux s fetch key 5 sector year 1

/-- The pure resolution of the retry loop, ignoring the store: the `(data,
status)` pair `_get_response_data` settles on when the existence check is
false throughout.  Used to state invariants of a run. -/
def resolveFetch (fetch : Nat → ApiResp) : Nat → Nat → List Line × Nat
  | k, attempt =>
    let resp := fetch attempt
    if resp.status = 429 then
      match k with
      | k' + 1 => resolveFetch fetch k' (attempt + 1)
      | 0 => ([], 429)
    else if resp.status = 200 then (resp.data, 200)
    else ([], resp.status)

/-! ## Row construction and batching (`db_zip_populator.py`) -/

/-- Python's `str.strip()`: leading and trailing whitespace removed
(computable over the character list). -/
def strip (s : String) : String :=
  ⟨((s.data.dropWhile Char.isWhitespace).reverse.dropWhile Char.isWhitespace).reverse⟩

/-- `ZipPopulator._create_row`. -/
def create_row (naicsCode : String) (line : Line) (year : Nat) : DataRow :=
  { geoId := line.zipcode
    naicsCode := naicsCode
    year := year
    establishments := line.estab
    employees := line.emp
    payroll := line.payann
    industryLevel := naicsCode.length }

/-- The rows `_get_zip_and_year_help` builds from a 200 response: the header
row is dropped and each remaining line is passed through `_create_row` with
`naics_code = str(line[1]).strip()`. -/
def rowsOf (data : List Line) (year : Nat) : List DataRow :=
  (data.drop 1).map (fun l => create_row (strip l.naics) l year)

/-- The batching loop of `_get_zip_and_year_help`: rows are accumulated into
`batch_data` and flushed to `insert_data_entries` whenever the buffer reaches
1000 rows, with a final flush of any remainder.  The result is the list of
flushed batches, in flush order. -/
def batchLoop (year : Nat) : List Line → List DataRow → List (List DataRow)
  | [], buf => if buf = [] then [] else [buf]
  | l :: ls, buf =>
    let row := create_row (strip l.naics) l year
    let buf2 := buf ++ [row]
    if 1000 ≤ buf2.length then buf2 :: batchLoop year ls []
    else batchLoop year ls buf2

/-! ## Fact store insertion (`database_populator.py`) -/

/-- `generate_entry_ids` + the id/row zip of `insert_data_entries`: each row
receives the next value of the `entryid_seq` sequence. -/
def assignEntryIds (nextId : Nat) : List DataRow → List FactRow
  | [] => []
  | r :: rs =>
    { entryId := nextId
      geoId := r.geoId
      naicsCode := r.naicsCode
      year := r.year
      establishments := r.establishments
      employees := r.employees
      payroll := r.payroll
      industryLevel := r.industryLevel } :: assignEntryIds (nextId + 1) rs

/-- The effect of a successful `insert_data_entries` call on the store: ids are
drawn from the sequence and the rows are appended to `DataEntry` by the bulk
`COPY`. -/
def insertBatchOk (s : Store) (rows : List DataRow) : Store :=
  { s with facts := s.facts ++ assignEntryIds s.nextId rows
           nextId := s.nextId + rows.length }

/-- `DatabasePopulator.insert_data_entries` with the `COPY` outcome made
explicit: `copyError = none` models a successful bulk load, `copyError = some e`
models `duckdb.Error e` raised by the `COPY`.  The entry ids are generated
*before* the `COPY`, so the sequence advances even when the load fails; the
`except duckdb.Error` clause prints the message and falls through, so the
function returns normally (`Except.ok`) in both cases. -/
def insert_data_entries (s : Store) (rows : List DataRow) (copyError : Option String) :
    Except String Store × List String :=
  match copyError with
  | none => (Except.ok (insertBatchOk s rows), [])
  | some e => (Except.ok { s with nextId := s.nextId + rows.length },
               ["An error occurred: " ++ e])

/-! ## Population engine (`db_zip_populator.py`) -/

/-- What happened when the population engine processed one (industry, year)
pair: a skip due to a previously failed attempt (before any store or network
access), or an outcome of `_get_response_data` with the status code the helper
saw, whether a network request was issued, and how many rows were inserted. -/
inductive Ev where
  | skippedFailed : Ev
  | response (status : Nat) (networked : Bool) (inserted : Nat) : Ev
  deriving DecidableEq

/-- The mutable state of one `ZipPopulator` instance during a run: the open
store and the in-memory `failed_attempts` set. -/
structure RunState where
  store : Store
  failed : List (String × Nat)
  deriving DecidableEq

/-- `ZipPopulator._get_zip_and_year_help`.  `api industry year` is the fetch
oracle for that pair (per attempt), and every bulk load succeeds (the claims
about load failures are settled on `insert_data_entries` directly). -/
def get_zip_and_year_help (api : String → Nat → Nat → ApiResp) (key : String)
    (st : RunState) (industry : String) (year : Nat) : RunState × Ev :=
  if (industry, year) ∈ st.failed then (st, Ev.skippedFailed)
  else
    let r := get_response_data st.store (api industry year) key industry year
    if r.status = 304 then (st, Ev.response 304 r.networked 0)
    else if r.status = 204 ∨ r.status ≠ 200 then
      ({ st with failed := st.failed.insert (industry, year) },
       Ev.response r.status r.networked 0)
    else
      let batches := batchLoop year (r.data.drop 1) []
      ({ st with store := batches.foldl insertBatchOk st.store },
       Ev.response 200 r.networked (rowsOf r.data year).length)

/-- The driving loop of `get_zip_for_year`: process each surviving industry
code through `_get_zip_and_year_help`, in list order, threading the run state
and recording one event per industry. -/
def runYear (api : String → Nat → Nat → ApiResp) (key : String) (year : Nat) :
    RunState → List String → RunState × List (String × Ev)
  | st, [] => (st, [])
  | st, i :: rest =>
    let p := get_zip_and_year_help api key st i year
    let q := runYear api key year p.1 rest
    (q.1, (i, p.2) :: q.2)

/-- The industry-list preparation in `get_zip_for_year`: the NAICS code `'0'`
is replaced by `'00'`, then only codes whose character length is one of the
configured industry levels are kept. -/
def processIndustries (raw : List String) (industry_levels : List Nat) : List String :=
  (raw.map (fun c => if c = "0" then "00" else c)).filter
    (fun c => industry_levels.contains c.length)

/-- `ZipPopulator.get_zip_for_year` for one target year: the filtered industry
list is processed through the helper against the per-year store. -/
def get_zip_for_year (api : String → Nat → Nat → ApiResp) (key : String)
    (industry_levels : List Nat) (raw : List String) (year : Nat)
    (st : RunState) : RunState × List (String × Ev) :=
  runYear api key year st (processIndustries raw industry_levels)

/-- A sequence of further `_get_zip_and_year_help` calls on the same
`ZipPopulator` instance (its in-memory state persists between calls). -/
def runCalls (api : String → Nat → Nat → ApiResp) (key : String)
    (st : RunState) (calls : List (String × Nat)) : RunState :=
  calls.foldl (fun s c => (get_zip_and_year_help api key s c.1 c.2).1) st

/-! ## Export engine (`exporter/duck_db_exporter.py`) -/

/-- One row of an exported CSV file, with the exported columns
`Zipcode, NaicsCode, Establishments, Employees, Payroll`. -/
structure ExportRow where
  zipcode : String
  naicsCode : String
  establishments : Int
  employees : Int
  payroll : Int
  deriving DecidableEq

/-- The projection `SELECT GeoID AS Zipcode, NaicsCode, Establishments,
Employees, Payroll` of a fact row. -/
def exportRowOf (f : FactRow) : ExportRow :=
  { zipcode := f.geoId
    naicsCode := f.naicsCode
    establishments := f.establishments
    employees := f.employees
    payroll := f.payroll }

/-- Computable codepoint-lexicographic comparison on character lists. -/
def strLeAux : List Char → List Char → Bool
  | [], _ => true
  | _ :: _, [] => false
  | a :: as, b :: bs =>
    if a.val.toNat < b.val.toNat then true
    else if b.val.toNat < a.val.toNat then false
    else strLeAux as bs

/-- Codepoint-lexicographic string comparison; on valid UTF-8 this is the
byte order DuckDB uses for `ORDER BY` on a `VARCHAR` column. -/
def strLe (a b : String) : Bool := strLeAux a.data b.data

/-- The `ORDER BY GeoID` order on exported rows. -/
def rowLe (a b : ExportRow) : Prop := strLe a.zipcode b.zipcode = true

instance : DecidableRel rowLe := fun a b => by unfold rowLe; infer_instance

/-- `DataExporter._fetch_states`: `SELECT DISTINCT State FROM DimZipCode`. -/
def fetch_states (s : Store) : List (Option String) :=
  (s.dimZipCode.map (fun z => z.state)).dedup

/-- `DataExporter._fetch_zipcodes_for_state`:
`SELECT GeoID FROM DimZipCode WHERE State = ?`. -/
def fetch_zipcodes_for_state (s : Store) (state : String) : List String :=
  (s.dimZipCode.filter (fun z => z.state == some state)).map (fun z => z.geoId)

/-- The per-file query of `make_csv`: facts restricted to the state's ZIP
codes, the target year and one industry level, projected to the CSV columns
and ordered by `GeoID`. -/
def queryRows (s : Store) (zipcodes : List String) (year level : Nat) : List ExportRow :=
  List.insertionSort rowLe
    ((s.facts.filter
      (fun f => zipcodes.contains f.geoId && f.year == year && f.industryLevel == level)).map
      exportRowOf)

/-- The CSV file name `US-<state>-census-naics<level>-zip-<year>.csv`. -/
def csvName (state : String) (level year : Nat) : String :=
  "US-" ++ state ++ "-census-naics" ++ toString level ++ "-zip-" ++ toString year ++ ".csv"

/-- The path `<export_dir>/<state>/<csv name>` a CSV file is written to. -/
def csvPath (exportDir state : String) (level year : Nat) : String :=
  exportDir ++ "/" ++ state ++ "/" ++ csvName state level year

/-- A CSV file written by `make_csv`: its path and its data rows. -/
structure CsvFile where
  path : String
  rows : List ExportRow
  deriving DecidableEq

/-- What `make_csv` produces: the written files, the per-level row counts
(`industry_level_row_counts`, an association list modelling the Python dict)
and `total_rows_exported`. -/
structure CsvOut where
  files : List CsvFile
  counts : List (Nat × Nat)
  total : Nat
  deriving DecidableEq

/-- `industry_level_row_counts[level] += n`. -/
def bumpCount (counts : List (Nat × Nat)) (level n : Nat) : List (Nat × Nat) :=
  counts.map (fun p => if p.1 = level then (p.1, p.2 + n) else p)

/-- The inner loop of `make_csv` over the configured industry levels for one
state directory: one CSV file per level, and the two counters are incremented
together by the row count of each file. -/
def exportLevels (s : Store) (year : Nat) (exportDir stateName : String)
    (zipcodes : List String) : List Nat → CsvOut → CsvOut
  | [], acc => acc
  | level :: rest, acc =>
    let rows := queryRows s zipcodes year level
    exportLevels s year exportDir stateName zipcodes rest
      { files := acc.files ++ [{ path := csvPath exportDir stateName level year, rows := rows }]
        counts := bumpCount acc.counts level rows.length
        total := acc.total + rows.length }

/-- The outer loop of `make_csv` over the states to export: `None` becomes the
`NotSpecified` bucket with the fixed ZIP list `['99999']`; an empty state
string raises `ValueError`; a state with no ZIP codes is skipped with a
warning. -/
def makeCsvLoop (s : Store) (levels : List Nat) (year : Nat) (exportDir : String) :
    List (Option String) → CsvOut → Except String CsvOut
  | [], acc => Except.ok acc
  | none :: rest, acc =>
    makeCsvLoop s levels year exportDir rest
      (exportLevels s year exportDir "NotSpecified" ["99999"] levels acc)
  | some stateName :: rest, acc =>
    if stateName = "" then Except.error "State is None or empty."
    else
      let zipcodes := fetch_zipcodes_for_state s stateName
      if zipcodes = [] then makeCsvLoop s levels year exportDir rest acc
      else
        makeCsvLoop s levels year exportDir rest
          (exportLevels s year exportDir stateName zipcodes levels acc)

/-- `states = [state] if state else self._fetch_states()` — a `None` or empty
state argument exports every state from the geography dimension. -/
def statesToExport (s : Store) : Option String → List (Option String)
  | none => fetch_states s
  | some stateName => if stateName = "" then fetch_states s else [some stateName]

/-- `DataExporter.make_csv`: per-level counts start at 0 for each configured
level (dict comprehension keys), then each selected state is exported. -/
def make_csv (s : Store) (levels : List Nat) (year : Nat) (exportDir : String)
    (state : Option String) : Except String CsvOut :=
  makeCsvLoop s levels year exportDir (statesToExport s state)
    { files := [], counts := levels.dedup.map (fun l => (l, 0)), total := 0 }

/-! ## Validator (`exporter/data_exporter_validation_test.py`,
`.github/scripts/run_validation_test.py`) -/

/-- `DataExporterTest._count_rows_in_db`: the fact-store row count for one
(state, industry level) pair; the `None` bucket is counted with
`GeoID = '99999'`, a state with the subquery over `DimZipCode`. -/
def count_rows_in_db (s : Store) (year level : Nat) : Option String → Nat
  | none =>
    s.facts.countP (fun f => f.year == year && f.industryLevel == level && f.geoId == "99999")
  | some state =>
    s.facts.countP (fun f => f.year == year && f.industryLevel == level &&
      (fetch_zipcodes_for_state s state).contains f.geoId)

/-- The file system seen by the validator: the row count of the CSV at a path,
or `none` when the file is missing (or unreadable). -/
def count_rows_in_csv (fs : String → Option Nat) (exportDir : String) (year : Nat)
    (state : Option String) (level : Nat) : Nat :=
  let stateName := match state with | none => "NotSpecified" | some st => st
  (fs (csvPath exportDir stateName level year)).getD 0

/-- `DataExporterTest._compare_counts`. -/
def compare_counts (s : Store) (fs : String → Option Nat) (exportDir : String)
    (year : Nat) (state : Option String) (level : Nat) : Bool :=
  count_rows_in_db s year level state == count_rows_in_csv fs exportDir year state level

/-- The inner loop of `run_test` over the configured industry levels for one
state: the pass flag is cleared and the pair recorded on every mismatch. -/
def runTestLevels (s : Store) (fs : String → Option Nat) (exportDir : String)
    (year : Nat) (state : Option String) :
    List Nat → Bool × List (Option String × Nat) → Bool × List (Option String × Nat)
  | [], acc => acc
  | level :: rest, acc =>
    if compare_counts s fs exportDir year state level then
      runTestLevels s fs exportDir year state rest acc
    else
      runTestLevels s fs exportDir year state rest (false, acc.2 ++ [(state, level)])

/-- The outer loop of `run_test` over the states of the geography dimension. -/
def runTestStates (s : Store) (levels : List Nat) (fs : String → Option Nat)
    (exportDir : String) (year : Nat) :
    List (Option String) → Bool × List (Option String × Nat) →
      Bool × List (Option String × Nat)
  | [], acc => acc
  | state :: rest, acc =>
    runTestStates s levels fs exportDir year rest
      (runTestLevels s fs exportDir year state levels acc)

/-- `DataExporterTest.run_test`: the `all_tests_passed` flag over every
(state, level) pair, together with the list of mismatching pairs that are
logged individually. -/
def run_test (s : Store) (levels : List Nat) (year : Nat) (fs : String → Option Nat)
    (exportDir : String) : Bool × List (Option String × Nat) :=
  runTestStates s levels fs exportDir year (fetch_states s) (true, [])

/-- The exit code of `.github/scripts/run_validation_test.py`: 0 when
`run_test` returned `True`, 1 otherwise. -/
def validateExitCode (result : Bool) : Nat :=
  if result then 0 else 1

/-! ## Shared lemmas -/

lemma string_seg (p q r T : String) (h : p = q ++ r) : p ++ T = q ++ (r ++ T) := by
  subst h
  rw [String.append_assoc]

lemma normSector_normSector (sector : String) :
    normSector (normSector sector) = normSector sector := by
  unfold normSector
  by_cases h : sector = "0"
  · simp [h]
  · simp [h]

lemma normSector_ne_zero (sector : String) : normSector sector ≠ "0" := by
  unfold normSector
  by_cases h : sector = "0"
  · simp [h]
  · simp [h]

/-- Every URL recorded by the retry loop is the request URL built from the
normalized sector, and at least one request is issued when the existence
check is false for both the raw and the normalized sector. -/
lemma getResponseDataAux_urls (s : Store) (fetch : Nat → ApiResp) (key : String) :
    ∀ (k : Nat) (sector : String) (year attempt : Nat),
    data_for_year_and_sector_exists s year sector = false →
    data_for_year_and_sector_exists s year (normSector sector) = false →
    (getResponseDataAux s fetch key k sector year attempt).urls ≠ [] ∧
    ∀ u ∈ (getResponseDataAux s fetch key k sector year attempt).urls,
      u = requestUrl year (normSector sector) key := by
  intro k
  induction k with
  | zero =>
    intro sector year attempt h1 h2
    rw [getResponseDataAux]
    rw [if_neg (by simp [h1])]
    by_cases h429 : (fetch attempt).status = 429
    · simp [h429]
    · by_cases h200 : (fetch attempt).status = 200
      · simp [h429, h200]
      · simp [h429, h200]
  | succ k' ih =>
    intro sector year attempt h1 h2
    rw [getResponseDataAux]
    rw [if_neg (by simp [h1])]
    by_cases h429 : (fetch attempt).status = 429
    · have hrec := ih (normSector sector) year (attempt + 1) h2
        (by rw [normSector_normSector]; exact h2)
      rw [normSector_normSector] at hrec
      simp only [h429, if_true]
      constructor
      · simp
      · intro u hu
        rcases List.mem_cons.mp hu with h | h
        · exact h
        · exact hrec.2 u h
    · by_cases h200 : (fetch attempt).status = 200
      · simp [h429, h200]
      · simp [h429, h200]

/-! ## Claim theorems -/

/-- C5: for every industry code and every year, the constructed request URL
uses endpoint `zbp` when 2012 ≤ year ≤ 2018 and `cbp` when year > 2018, the
NAICS-revision parameter key is NAICS1997 for 2000–2002, NAICS2002 for
2003–2007, NAICS2007 for 2008–2011, NAICS2012 for 2012–2016, and NAICS2017
otherwise, and the sentinel industry code "0" is normalized to "00" before the
URL is built. -/
theorem c5_endpoint_and_revision_selection (year : Nat) (sector key : String) :
    (2012 ≤ year → year ≤ 2018 →
      requestUrl year sector key = censusUrl "zbp" (naicsYearSelector year) year sector key)
    ∧ (2018 < year →
      requestUrl year sector key = censusUrl "cbp" (naicsYearSelector year) year sector key)
    ∧ (2000 ≤ year → year ≤ 2002 → naicsYearSelector year = "NAICS1997")
    ∧ (2003 ≤ year → year ≤ 2007 → naicsYearSelector year = "NAICS2002")
    ∧ (2008 ≤ year → year ≤ 2011 → naicsYearSelector year = "NAICS2007")
    ∧ (2012 ≤ year → year ≤ 2016 → naicsYearSelector year = "NAICS2012")
    ∧ (year ≤ 1999 ∨ 2017 ≤ year → naicsYearSelector year = "NAICS2017")
    ∧ normSector "0" = "00"
    ∧ (∀ (s : Store) (fetch : Nat → ApiResp),
        data_for_year_and_sector_exists s year "0" = false →
        data_for_year_and_sector_exists s year "00" = false →
        (get_response_data s fetch key "0" year).urls ≠ [] ∧
        ∀ u ∈ (get_response_data s fetch key "0" year).urls,
          u = requestUrl year "00" key) := by
  refine ⟨?_, ?_, ?_, ?_, ?_, ?_, ?_, ?_, ?_⟩
  · intro h1 h2
    simp only [requestUrl, censusUrl]
    rw [if_neg (by omega)]
    simp only [String.append_assoc]
    rw [string_seg "/zbp?get=ZIPCODE," "/" "zbp?get=ZIPCODE," _ (by decide)]
    rw [string_seg "zbp?get=ZIPCODE," "zbp" "?get=ZIPCODE," _ (by decide)]
  · intro h1
    simp only [requestUrl, censusUrl]
    rw [if_pos (by omega)]
    simp only [String.append_assoc]
    rw [string_seg "/cbp?get=ZIPCODE," "/" "cbp?get=ZIPCODE," _ (by decide)]
    rw [string_seg "cbp?get=ZIPCODE," "cbp" "?get=ZIPCODE," _ (by decide)]
  · intro h1 h2
    simp only [naicsYearSelector]
    rw [if_pos ⟨by omega, by omega⟩]
  · intro h1 h2
    simp only [naicsYearSelector]
    rw [if_neg (by omega), if_pos ⟨by omega, by omega⟩]
  · intro h1 h2
    simp only [naicsYearSelector]
    rw [if_neg (by omega), if_neg (by omega), if_pos ⟨by omega, by omega⟩]
  · intro h1 h2
    simp only [naicsYearSelector]
    rw [if_neg (by omega), if_neg (by omega), if_neg (by omega), if_pos ⟨by omega, by omega⟩]
  · intro h
    simp only [naicsYearSelector]
    rw [if_neg (by omega), if_neg (by omega), if_neg (by omega), if_neg (by omega)]
  · rfl
  · intro s fetch h1 h2
    have h := getResponseDataAux_urls s fetch key 5 "0" year 1 h1 (by exact h2)
    rw [show normSector "0" = "00" from rfl] at h
    exact h

/-- C5 witness: the theorem at year 2013, sector "55" (and sector "0" for the
normalization conjunct) with an empty store. -/
theorem c5_witness :
    requestUrl 2013 "55" "k" = censusUrl "zbp" (naicsYearSelector 2013) 2013 "55" "k" ∧
    naicsYearSelector 2013 = "NAICS2012" ∧
    (get_response_data { dimZipCode := [], facts := [], nextId := 1 }
      (fun _ => { status := 200, data := [] }) "k" "0" 2013).urls ≠ [] :=
  ⟨(c5_endpoint_and_revision_selection 2013 "55" "k").1 (by decide) (by decide),
   (c5_endpoint_and_revision_selection 2013 "55" "k").2.2.2.2.2.1 (by decide) (by decide),
   ((c5_endpoint_and_revision_selection 2013 "0" "k").2.2.2.2.2.2.2.2
     { dimZipCode := [], facts := [], nextId := 1 }
     (fun _ => { status := 200, data := [] }) (by decide) (by decide)).1⟩

/-- C2 counterexample: a `duckdb.Error` raised by the bulk `COPY` inside
`insert_data_entries` is caught by the `except` clause, printed, and the
method returns normally — it does not surface to the caller as a hard
failure, contrary to the claim.  (On this input the sequence still advances
by the batch size, and no fact row is added.) -/
theorem c2_counterexample_store_error_swallowed :
    (insert_data_entries { dimZipCode := [], facts := [], nextId := 1 }
      [{ geoId := "12345", naicsCode := "11", year := 2024, establishments := 1,
         employees := 2, payroll := 3, industryLevel := 2 }]
      (some "IO Error: unable to open temp CSV")).1 =
      Except.ok { dimZipCode := [], facts := [], nextId := 2 } ∧
    (insert_data_entries { dimZipCode := [], facts := [], nextId := 1 }
      [{ geoId := "12345", naicsCode := "11", year := 2024, establishments := 1,
         employees := 2, payroll := 3, industryLevel := 2 }]
      (some "IO Error: unable to open temp CSV")).2 =
      ["An error occurred: IO Error: unable to open temp CSV"] ∧
    ∀ msg, (insert_data_entries { dimZipCode := [], facts := [], nextId := 1 }
      [{ geoId := "12345", naicsCode := "11", year := 2024, establishments := 1,
         employees := 2, payroll := 3, industryLevel := 2 }]
      (some "IO Error: unable to open temp CSV")).1 ≠ Except.error msg :=
  ⟨rfl, rfl, fun _ h => Except.noConfusion h⟩

/-- C2 amended: if the bulk load inside `insert_data_entries` fails with a
store error, the error is logged (`"An error occurred: ..."` is printed) and
the method returns normally with no fact row added — the failure is swallowed,
so the insertion step does not abort the current year's population run. -/
theorem c2_store_error_logged_and_swallowed (s : Store) (rows : List DataRow) (e : String) :
    (insert_data_entries s rows (some e)).1 =
      Except.ok { s with nextId := s.nextId + rows.length } ∧
    (insert_data_entries s rows (some e)).2 = ["An error occurred: " ++ e] ∧
    ∀ s2, (insert_data_entries s rows (some e)).1 = Except.ok s2 → s2.facts = s.facts :=
  ⟨rfl, rfl, fun s2 h => by cases h; rfl⟩

/-! ### Counter bookkeeping of `make_csv` (towards C10 and C1) -/

/-- The sum of the per-level counters. -/
def sumCounts (counts : List (Nat × Nat)) : Nat :=
  (counts.map (fun p => p.2)).sum

lemma bumpCount_keys (counts : List (Nat × Nat)) (level n : Nat) :
    (bumpCount counts level n).map Prod.fst = counts.map Prod.fst := by
  induction counts with
  | nil => rfl
  | cons p rest ih =>
    simp only [bumpCount, List.map_cons, List.map_map] at *
    by_cases h : p.1 = level
    · simp [h, ih]
    · simp [h, ih]

lemma bumpCount_cons (p : Nat × Nat) (rest : List (Nat × Nat)) (level n : Nat) :
    bumpCount (p :: rest) level n =
      (if p.1 = level then (p.1, p.2 + n) else p) :: bumpCount rest level n := rfl

lemma sumCounts_cons (p : Nat × Nat) (rest : List (Nat × Nat)) :
    sumCounts (p :: rest) = p.2 + sumCounts rest := by
  simp [sumCounts]

lemma bumpCount_of_not_mem (counts : List (Nat × Nat)) (level n : Nat)
    (h : level ∉ counts.map Prod.fst) : bumpCount counts level n = counts := by
  induction counts with
  | nil => rfl
  | cons p rest ih =>
    simp only [List.map_cons, List.mem_cons] at h
    push_neg at h
    rw [bumpCount_cons, if_neg (fun hc => h.1 hc.symm), ih h.2]

lemma sumCounts_bumpCount (counts : List (Nat × Nat)) (level n : Nat)
    (hnd : (counts.map Prod.fst).Nodup) (hmem : level ∈ counts.map Prod.fst) :
    sumCounts (bumpCount counts level n) = sumCounts counts + n := by
  induction counts with
  | nil => simp at hmem
  | cons p rest ih =>
    simp only [List.map_cons, List.nodup_cons] at hnd
    simp only [List.map_cons, List.mem_cons] at hmem
    rw [bumpCount_cons]
    by_cases h : p.1 = level
    · have hnot : level ∉ rest.map Prod.fst := h ▸ hnd.1
      rw [if_pos h, bumpCount_of_not_mem rest level n hnot, sumCounts_cons, sumCounts_cons]
      omega
    · rcases hmem with hmem | hmem
      · exact absurd hmem.symm h
      · rw [if_neg h, sumCounts_cons, sumCounts_cons, ih hnd.2 hmem]
        omega

/-- The bookkeeping invariant of `make_csv`: the counter keys are the distinct
configured levels, and the running total equals the sum of the per-level
counters and the sum of the row counts of the files written so far. -/
def CsvInv (levels : List Nat) (o : CsvOut) : Prop :=
  o.counts.map Prod.fst = levels.dedup ∧
  o.total = sumCounts o.counts ∧
  o.total = (o.files.map (fun f => f.rows.length)).sum

lemma exportLevels_inv (s : Store) (year : Nat) (exportDir stateName : String)
    (zipcodes : List String) (levels : List Nat) :
    ∀ (L : List Nat) (acc : CsvOut), (∀ l ∈ L, l ∈ levels) → CsvInv levels acc →
      CsvInv levels (exportLevels s year exportDir stateName zipcodes L acc) := by
  intro L
  induction L with
  | nil => intro acc _ h; exact h
  | cons level rest ih =>
    intro acc hL hacc
    rw [exportLevels]
    refine ih _ (fun l hl => hL l (List.mem_cons_of_mem _ hl)) ?_
    obtain ⟨hk, ht, hf⟩ := hacc
    have hmem : level ∈ acc.counts.map Prod.fst := by
      rw [hk, List.mem_dedup]; exact hL level (List.mem_cons_self level rest)
    refine ⟨?_, ?_, ?_⟩
    · simpa [bumpCount_keys] using hk
    · simp only [sumCounts_bumpCount acc.counts level _ (hk ▸ (List.nodup_dedup levels)) hmem]
      omega
    · simp [hf, ht]

lemma makeCsvLoop_inv (s : Store) (levels : List Nat) (year : Nat) (exportDir : String) :
    ∀ (buckets : List (Option String)) (acc : CsvOut) (out : CsvOut),
      CsvInv levels acc →
      makeCsvLoop s levels year exportDir buckets acc = Except.ok out →
      CsvInv levels out := by
  intro buckets
  induction buckets with
  | nil =>
    intro acc out hacc h
    rw [makeCsvLoop] at h
    cases h
    exact hacc
  | cons b rest ih =>
    intro acc out hacc h
    cases b with
    | none =>
      rw [makeCsvLoop] at h
      exact ih _ out (exportLevels_inv s year exportDir "NotSpecified" ["99999"] levels
        levels acc (fun l hl => hl) hacc) h
    | some stateName =>
      rw [makeCsvLoop] at h
      by_cases he : stateName = ""
      · rw [if_pos he] at h; cases h
      · rw [if_neg he] at h
        by_cases hz : fetch_zipcodes_for_state s stateName = []
        · rw [if_pos hz] at h
          exact ih _ out hacc h
        · rw [if_neg hz] at h
          exact ih _ out (exportLevels_inv s year exportDir stateName _ levels
            levels acc (fun l hl => hl) hacc) h

/-- C10: for every call of `make_csv` (any state argument, any store contents)
that returns, the returned `total_rows_exported` equals the sum over the
configured industry levels of the returned per-level counts
`industry_level_row_counts[level]`, since both counters are incremented
together by the same per-file row count. -/
theorem c10_total_equals_sum_of_level_counts (s : Store) (levels : List Nat)
    (year : Nat) (exportDir : String) (state : Option String) (out : CsvOut)
    (h : make_csv s levels year exportDir state = Except.ok out) :
    out.total = sumCounts out.counts ∧ out.counts.map Prod.fst = levels.dedup := by
  have hsum0 : ∀ L : List Nat, sumCounts (L.map (fun l => (l, 0))) = 0 := by
    intro L
    induction L with
    | nil => rfl
    | cons l rest ih => rw [List.map_cons, sumCounts_cons, ih]
  have hinit : CsvInv levels
      { files := [], counts := levels.dedup.map (fun l => (l, 0)), total := 0 } := by
    refine ⟨?_, ?_, ?_⟩
    · show List.map Prod.fst (levels.dedup.map (fun l => (l, 0))) = levels.dedup
      rw [List.map_map, show (Prod.fst ∘ fun l : Nat => (l, 0)) = id from rfl, List.map_id]
    · exact (hsum0 levels.dedup).symm
    · rfl
  have := makeCsvLoop_inv s levels year exportDir (statesToExport s state) _ out hinit h
  exact ⟨this.2.1, this.1⟩

/-- C10 witness: a concrete one-state store exported in full, with the
output produced by `make_csv` evaluated explicitly. -/
theorem c10_witness :
    make_csv
      { dimZipCode := [{ geoId := "12345", city := none, state := some "CA" },
                       { geoId := "99999", city := none, state := none }],
        facts := [{ entryId := 1, geoId := "12345", naicsCode := "11", year := 2024,
                    establishments := 3, employees := 4, payroll := 5, industryLevel := 2 }],
        nextId := 2 }
      [2] 2024 "exp" none = Except.ok
        { files := [{ path := "exp/CA/US-CA-census-naics2-zip-2024.csv",
                      rows := [{ zipcode := "12345", naicsCode := "11",
                                 establishments := 3, employees := 4, payroll := 5 }] },
                    { path := "exp/NotSpecified/US-NotSpecified-census-naics2-zip-2024.csv",
                      rows := [] }],
          counts := [(2, 1)], total := 1 } ∧
    (1 : Nat) = sumCounts [(2, 1)] :=
  ⟨rfl,
   (c10_total_equals_sum_of_level_counts
      { dimZipCode := [{ geoId := "12345", city := none, state := some "CA" },
                       { geoId := "99999", city := none, state := none }],
        facts := [{ entryId := 1, geoId := "12345", naicsCode := "11", year := 2024,
                    establishments := 3, employees := 4, payroll := 5, industryLevel := 2 }],
        nextId := 2 }
      [2] 2024 "exp" none
      { files := [{ path := "exp/CA/US-CA-census-naics2-zip-2024.csv",
                    rows := [{ zipcode := "12345", naicsCode := "11",
                               establishments := 3, employees := 4, payroll := 5 }] },
                  { path := "exp/NotSpecified/US-NotSpecified-census-naics2-zip-2024.csv",
                    rows := [] }],
        counts := [(2, 1)], total := 1 } rfl).1⟩

/-! ### Batching and insertion lemmas (towards C8, C3, C9) -/

lemma batchLoop_join (year : Nat) :
    ∀ (lines : List Line) (buf : List DataRow),
      (batchLoop year lines buf).flatten =
        buf ++ lines.map (fun l => create_row (strip l.naics) l year) := by
  intro lines
  induction lines with
  | nil =>
    intro buf
    rw [batchLoop]
    by_cases h : buf = []
    · simp [h]
    · simp [h]
  | cons l ls ih =>
    intro buf
    rw [batchLoop]
    by_cases h : 1000 ≤ (buf ++ [create_row (strip l.naics) l year]).length
    · rw [if_pos h]
      simp [ih]
    · rw [if_neg h]
      simp [ih]

lemma batchLoop_bounded (year : Nat) :
    ∀ (lines : List Line) (buf : List DataRow), buf.length ≤ 999 →
      ∀ b ∈ batchLoop year lines buf, b.length ≤ 1000 ∧ b ≠ [] := by
  intro lines
  induction lines with
  | nil =>
    intro buf hbuf b hb
    rw [batchLoop] at hb
    by_cases h : buf = []
    · rw [if_pos h] at hb
      simp at hb
    · rw [if_neg h] at hb
      simp at hb
      subst hb
      exact ⟨by omega, h⟩
  | cons l ls ih =>
    intro buf hbuf b hb
    rw [batchLoop] at hb
    by_cases h : 1000 ≤ (buf ++ [create_row (strip l.naics) l year]).length
    · rw [if_pos h] at hb
      rcases List.mem_cons.mp hb with rfl | hb2
      · constructor
        · simp at h ⊢
          omega
        · simp
      · exact ih [] (by simp) b hb2
    · rw [if_neg h] at hb
      refine ih _ ?_ b hb
      simp at h ⊢
      omega

lemma assignEntryIds_append (a b : List DataRow) :
    ∀ n, assignEntryIds n (a ++ b) = assignEntryIds n a ++ assignEntryIds (n + a.length) b := by
  induction a with
  | nil => intro n; simp [assignEntryIds]
  | cons r rs ih =>
    intro n
    simp only [List.cons_append, assignEntryIds, List.length_cons, List.append_eq]
    rw [ih (n + 1), show n + (rs.length + 1) = n + 1 + rs.length from by omega]

lemma assignEntryIds_length (rows : List DataRow) :
    ∀ n, (assignEntryIds n rows).length = rows.length := by
  induction rows with
  | nil => intro n; rfl
  | cons r rs ih => intro n; simp [assignEntryIds, ih]

lemma foldl_insertBatchOk (bs : List (List DataRow)) :
    ∀ (s : Store), bs.foldl insertBatchOk s =
      { s with facts := s.facts ++ assignEntryIds s.nextId bs.flatten
               nextId := s.nextId + bs.flatten.length } := by
  induction bs with
  | nil =>
    intro s
    cases s
    simp [assignEntryIds]
  | cons b rest ih =>
    intro s
    rw [List.foldl_cons, ih]
    simp only [insertBatchOk, List.flatten_cons, Store.mk.injEq, assignEntryIds_append,
      assignEntryIds_length, List.length_append, List.append_assoc, true_and, and_true]
    omega

/-! ### Characterizations of one `_get_zip_and_year_help` call -/

lemma getResponseDataAux_of_exists (s : Store) (fetch : Nat → ApiResp) (key : String)
    (k : Nat) (sector : String) (year attempt : Nat)
    (h : data_for_year_and_sector_exists s year sector = true) :
    getResponseDataAux s fetch key k sector year attempt =
      { data := [], status := 304, delays := [], urls := [], networked := false } := by
  rw [getResponseDataAux, if_pos (by simp [h])]

lemma getResponseDataAux_spec (s : Store) (fetch : Nat → ApiResp) (key : String) :
    ∀ (k : Nat) (sector : String) (year attempt : Nat),
      normSector sector = sector →
      data_for_year_and_sector_exists s year sector = false →
      (getResponseDataAux s fetch key k sector year attempt).data =
          (resolveFetch fetch k attempt).1 ∧
      (getResponseDataAux s fetch key k sector year attempt).status =
          (resolveFetch fetch k attempt).2 ∧
      (getResponseDataAux s fetch key k sector year attempt).networked = true := by
  intro k
  induction k with
  | zero =>
    intro sector year attempt hsec h
    rw [getResponseDataAux, if_neg (by simp [h]), resolveFetch]
    by_cases h429 : (fetch attempt).status = 429
    · simp [h429]
    · by_cases h200 : (fetch attempt).status = 200
      · simp [h429, h200]
      · simp [h429, h200]
  | succ k' ih =>
    intro sector year attempt hsec h
    rw [getResponseDataAux, if_neg (by simp [h]), resolveFetch]
    by_cases h429 : (fetch attempt).status = 429
    · simp only [h429, if_true]
      rw [hsec]
      have := ih sector year (attempt + 1) hsec h
      exact ⟨this.1, this.2.1, trivial⟩
    · by_cases h200 : (fetch attempt).status = 200
      · simp [h429, h200]
      · simp [h429, h200]

lemma help_of_failed (api : String → Nat → Nat → ApiResp) (key : String)
    (st : RunState) (i : String) (y : Nat) (h : (i, y) ∈ st.failed) :
    get_zip_and_year_help api key st i y = (st, Ev.skippedFailed) := by
  rw [get_zip_and_year_help, if_pos h]

lemma help_of_exists (api : String → Nat → Nat → ApiResp) (key : String)
    (st : RunState) (i : String) (y : Nat) (h1 : (i, y) ∉ st.failed)
    (h2 : data_for_year_and_sector_exists st.store y i = true) :
    get_zip_and_year_help api key st i y = (st, Ev.response 304 false 0) := by
  rw [get_zip_and_year_help, if_neg h1]
  simp [get_response_data, getResponseDataAux_of_exists st.store (api i y) key 5 i y 1 h2]

lemma help_of_fetch (api : String → Nat → Nat → ApiResp) (key : String)
    (st : RunState) (i : String) (y : Nat) (h1 : (i, y) ∉ st.failed)
    (h2 : data_for_year_and_sector_exists st.store y i = false)
    (hsec : normSector i = i) :
    get_zip_and_year_help api key st i y =
      (if (resolveFetch (api i y) 5 1).2 = 304 then (st, Ev.response 304 true 0)
       else if (resolveFetch (api i y) 5 1).2 = 204 ∨ (resolveFetch (api i y) 5 1).2 ≠ 200 then
         ({ st with failed := st.failed.insert (i, y) },
          Ev.response (resolveFetch (api i y) 5 1).2 true 0)
       else
         ({ st with store := ((batchLoop y ((resolveFetch (api i y) 5 1).1.drop 1) []).foldl insertBatchOk st.store) },
          Ev.response 200 true (rowsOf (resolveFetch (api i y) 5 1).1 y).length)) := by
  obtain ⟨hd, hst, hnw⟩ := getResponseDataAux_spec st.store (api i y) key 5 i y 1 hsec h2
  rw [get_zip_and_year_help, if_neg h1]
  simp only [get_response_data] at hd hst hnw ⊢
  rw [hd, hst, hnw]

/-- C8: for every successfully fetched (industry, year) response, the header
row is stripped and the remaining data rows are accumulated into a batch
buffer flushed at 1000 rows with any remainder flushed at the end: every
flushed batch is nonempty with at most 1000 rows, the concatenation of the
flushed batches equals the created rows in order, and consequently a 200
response appends exactly the created rows (with fresh sequential entry ids)
to the fact table. -/
theorem c8_batching_contract (year : Nat) (lines : List Line) :
    ((batchLoop year lines []).flatten = lines.map (fun l => create_row (strip l.naics) l year))
    ∧ (∀ b ∈ batchLoop year lines [], b.length ≤ 1000 ∧ b ≠ [])
    ∧ (∀ (api : String → Nat → Nat → ApiResp) (key : String) (st : RunState) (i : String),
        (i, year) ∉ st.failed →
        normSector i = i →
        data_for_year_and_sector_exists st.store year i = false →
        (resolveFetch (api i year) 5 1).2 = 200 →
        (resolveFetch (api i year) 5 1).1 = lines →
        (get_zip_and_year_help api key st i year).1.store.facts =
          st.store.facts ++ assignEntryIds st.store.nextId (rowsOf lines year)) := by
  refine ⟨by simpa using batchLoop_join year lines [], batchLoop_bounded year lines [] (by simp), ?_⟩
  intro api key st i h1 hsec h2 h200 hdata
  rw [help_of_fetch api key st i year h1 h2 hsec]
  rw [if_neg (by omega : ¬ (resolveFetch (api i year) 5 1).2 = 304)]
  rw [if_neg (by push_neg; exact ⟨by omega, h200⟩)]
  simp only [foldl_insertBatchOk, hdata]
  rw [show (batchLoop year (lines.drop 1) []).flatten = rowsOf lines year by
    simpa [rowsOf] using batchLoop_join year (lines.drop 1) []]

/-- A concrete 200 response used by witnesses: a header row plus two data rows. -/
def sampleLines : List Line :=
  [{ zipcode := "ZIPCODE", naics := "NAICS2017", estab := 0, emp := 0, payann := 0 },
   { zipcode := "12345", naics := "11", estab := 1, emp := 2, payann := 3 },
   { zipcode := "67890", naics := "22", estab := 4, emp := 5, payann := 6 }]

/-- A fetch oracle answering every request with `sampleLines` and status 200. -/
def sampleApi : String → Nat → Nat → ApiResp := fun _ _ _ => ⟨200, sampleLines⟩

/-- A run state over an empty store with no failed attempts. -/
def emptyRun : RunState := { store := { dimZipCode := [], facts := [], nextId := 1 }, failed := [] }

/-- C8 witness: a concrete 200 response with a header row and two data rows,
fetched and inserted into an empty store. -/
theorem c8_witness :
    ((batchLoop 2024 sampleLines []).flatten =
      sampleLines.map (fun l => create_row (strip l.naics) l 2024))
    ∧ (get_zip_and_year_help sampleApi "k" emptyRun "11" 2024).1.store.facts =
        [] ++ assignEntryIds 1 (rowsOf sampleLines 2024) :=
  ⟨(c8_batching_contract 2024 sampleLines).1,
   (c8_batching_contract 2024 sampleLines).2.2 sampleApi "k" emptyRun "11"
     (by decide) (by decide) (by decide) (by decide) (by decide)⟩

/-! ### Monotonicity of the failed-attempts set -/

lemma help_failed_mono (api : String → Nat → Nat → ApiResp) (key : String)
    (st : RunState) (i : String) (y : Nat) :
    st.failed ⊆ (get_zip_and_year_help api key st i y).1.failed := by
  by_cases hmem : (i, y) ∈ st.failed
  · rw [help_of_failed api key st i y hmem]
    exact fun x hx => hx
  · rw [get_zip_and_year_help, if_neg hmem]
    simp only
    split
    · exact fun x hx => hx
    · split
      · intro x hx
        exact List.mem_insert_iff.mpr (Or.inr hx)
      · exact fun x hx => hx

lemma runCalls_failed_mono (api : String → Nat → Nat → ApiResp) (key : String) :
    ∀ (calls : List (String × Nat)) (st : RunState),
      st.failed ⊆ (runCalls api key st calls).failed := by
  intro calls
  induction calls with
  | nil => intro st x hx; exact hx
  | cons c rest ih =>
    intro st x hx
    exact ih _ (help_failed_mono api key st c.1 c.2 hx)

/-- C9: once an (industry, year) pair has been added to the failed-attempts
set during a run, any sequence of further helper calls on the same
`ZipPopulator` instance keeps it there, and a subsequent call of
`_get_zip_and_year_help` for that pair returns immediately with the state
unchanged and no network request or insertion (`Ev.skippedFailed`). -/
theorem c9_failed_pairs_never_retried (api : String → Nat → Nat → ApiResp)
    (key : String) (st : RunState) (i : String) (y : Nat)
    (h : (i, y) ∈ st.failed) (calls : List (String × Nat)) :
    (i, y) ∈ (runCalls api key st calls).failed ∧
    get_zip_and_year_help api key (runCalls api key st calls) i y =
      (runCalls api key st calls, Ev.skippedFailed) := by
  have hmem := runCalls_failed_mono api key calls st h
  exact ⟨hmem, help_of_failed _ _ _ _ _ hmem⟩

/-- A run state whose failed-attempts set already contains ("22", 2019). -/
def failedRun : RunState :=
  { store := { dimZipCode := [], facts := [], nextId := 1 }, failed := [("22", 2019)] }

/-- C9 witness: after a further helper call for another pair (which itself
fails with a 204), the ("22", 2019) pair is still marked failed and a call for
it returns immediately. -/
theorem c9_witness :
    ("22", 2019) ∈ (runCalls (fun _ _ _ => ⟨204, []⟩) "k" failedRun [("33", 2019)]).failed ∧
    get_zip_and_year_help (fun _ _ _ => ⟨204, []⟩) "k"
        (runCalls (fun _ _ _ => ⟨204, []⟩) "k" failedRun [("33", 2019)]) "22" 2019 =
      (runCalls (fun _ _ _ => ⟨204, []⟩) "k" failedRun [("33", 2019)], Ev.skippedFailed) :=
  c9_failed_pairs_never_retried (fun _ _ _ => ⟨204, []⟩) "k" failedRun "22" 2019
    (by decide) [("33", 2019)]

/-! ### C4: the retry bound of `_get_response_data` -/

/-- C4: when `_get_response_data` receives HTTP 429 it retries after a sleep
of 2^attempt seconds; five consecutive 429 responses followed by a 200 return
the parsed data with status 200 (after sleeps 2,4,8,16,32), while six
consecutive 429 responses exhaust the retries, return status 429, and cause
the pair to be added to the failed-attempts set for the remainder of the run. -/
theorem c4_retry_bound (key sector : String) (year : Nat)
    (api : String → Nat → Nat → ApiResp) (st : RunState)
    (hne : data_for_year_and_sector_exists st.store year sector = false)
    (hsec : normSector sector = sector)
    (hnf : (sector, year) ∉ st.failed) :
    (∀ d : List Line,
      (∀ a, 1 ≤ a → a ≤ 5 → api sector year a = ⟨429, []⟩) →
      api sector year 6 = ⟨200, d⟩ →
      get_response_data st.store (api sector year) key sector year =
        { data := d, status := 200, delays := [2, 4, 8, 16, 32],
          urls := List.replicate 6 (requestUrl year sector key), networked := true })
    ∧ ((∀ a, 1 ≤ a → a ≤ 6 → api sector year a = ⟨429, []⟩) →
      get_response_data st.store (api sector year) key sector year =
        { data := [], status := 429, delays := [2, 4, 8, 16, 32],
          urls := List.replicate 6 (requestUrl year sector key), networked := true }
      ∧ (sector, year) ∈ (get_zip_and_year_help api key st sector year).1.failed
      ∧ ∀ calls, (sector, year) ∈
          (runCalls api key (get_zip_and_year_help api key st sector year).1 calls).failed) := by
  constructor
  · intro d h429s h200
    have e1 := h429s 1 (by omega) (by omega)
    have e2 := h429s 2 (by omega) (by omega)
    have e3 := h429s 3 (by omega) (by omega)
    have e4 := h429s 4 (by omega) (by omega)
    have e5 := h429s 5 (by omega) (by omega)
    simp only [get_response_data, getResponseDataAux, hne, hsec, e1, e2, e3, e4, e5, h200,
      Bool.false_eq_true, if_false, List.replicate]
    norm_num
  · intro h429s
    have e1 := h429s 1 (by omega) (by omega)
    have e2 := h429s 2 (by omega) (by omega)
    have e3 := h429s 3 (by omega) (by omega)
    have e4 := h429s 4 (by omega) (by omega)
    have e5 := h429s 5 (by omega) (by omega)
    have e6 := h429s 6 (by omega) (by omega)
    have hr : get_response_data st.store (api sector year) key sector year =
        { data := [], status := 429, delays := [2, 4, 8, 16, 32],
          urls := List.replicate 6 (requestUrl year sector key), networked := true } := by
      simp only [get_response_data, getResponseDataAux, hne, hsec, e1, e2, e3, e4, e5, e6,
        Bool.false_eq_true, if_false, List.replicate]
      norm_num
    refine ⟨hr, ?_, ?_⟩
    · rw [get_zip_and_year_help, if_neg hnf]
      simp only [hr]
      norm_num
    · intro calls
      refine runCalls_failed_mono api key calls _ ?_
      rw [get_zip_and_year_help, if_neg hnf]
      simp only [hr]
      norm_num

/-- A fetch oracle that is rate-limited on the first five attempts and
succeeds afterwards. -/
def retryThenOkApi : String → Nat → Nat → ApiResp :=
  fun _ _ a => if a ≤ 5 then ⟨429, []⟩ else ⟨200, sampleLines⟩

/-- A fetch oracle that is rate-limited on every attempt. -/
def always429Api : String → Nat → Nat → ApiResp := fun _ _ _ => ⟨429, []⟩

/-- C4 witness: five 429s then a 200 succeed with the recorded back-off
sleeps; six 429s mark the pair failed. -/
theorem c4_witness :
    get_response_data emptyRun.store (retryThenOkApi "72" 2013) "k" "72" 2013 =
      { data := sampleLines, status := 200, delays := [2, 4, 8, 16, 32],
        urls := List.replicate 6 (requestUrl 2013 "72" "k"), networked := true } ∧
    ("72", 2013) ∈ (get_zip_and_year_help always429Api "k" emptyRun "72" 2013).1.failed :=
  ⟨(c4_retry_bound "k" "72" 2013 retryThenOkApi emptyRun (by decide) (by decide)
      (by decide)).1 sampleLines
      (fun a _ h5 => by simp only [retryThenOkApi, if_pos h5]) (by decide),
   ((c4_retry_bound "k" "72" 2013 always429Api emptyRun (by decide) (by decide)
      (by decide)).2 (fun _ _ _ => rfl)).2.1⟩

/-! ### C7: the validator verdict -/

lemma runTestLevels_spec (s : Store) (fs : String → Option Nat) (exportDir : String)
    (year : Nat) (state : Option String) :
    ∀ (L : List Nat) (acc : Bool × List (Option String × Nat)),
      (runTestLevels s fs exportDir year state L acc).1 =
        (acc.1 && L.all (fun l => compare_counts s fs exportDir year state l)) ∧
      (runTestLevels s fs exportDir year state L acc).2 =
        acc.2 ++ (L.filter (fun l => !compare_counts s fs exportDir year state l)).map
          (fun l => (state, l)) := by
  intro L
  induction L with
  | nil => intro acc; simp [runTestLevels]
  | cons l rest ih =>
    intro acc
    rw [runTestLevels]
    by_cases h : compare_counts s fs exportDir year state l
    · rw [if_pos h]
      obtain ⟨h1, h2⟩ := ih acc
      constructor
      · rw [h1]; simp [h]
      · rw [h2]; simp [h]
    · rw [if_neg h]
      obtain ⟨h1, h2⟩ := ih (false, acc.2 ++ [(state, l)])
      constructor
      · rw [h1]; simp [Bool.eq_false_iff.mpr h]
      · rw [h2]; simp [Bool.eq_false_iff.mpr h]

lemma runTestStates_spec (s : Store) (levels : List Nat) (fs : String → Option Nat)
    (exportDir : String) (year : Nat) :
    ∀ (S : List (Option String)) (acc : Bool × List (Option String × Nat)),
      (runTestStates s levels fs exportDir year S acc).1 =
        (acc.1 && S.all (fun st =>
          levels.all (fun l => compare_counts s fs exportDir year st l))) ∧
      (runTestStates s levels fs exportDir year S acc).2 =
        acc.2 ++ S.flatMap (fun st =>
          (levels.filter (fun l => !compare_counts s fs exportDir year st l)).map
            (fun l => (st, l))) := by
  intro S
  induction S with
  | nil => intro acc; simp [runTestStates]
  | cons st rest ih =>
    intro acc
    rw [runTestStates]
    obtain ⟨g1, g2⟩ := ih (runTestLevels s fs exportDir year st levels acc)
    obtain ⟨f1, f2⟩ := runTestLevels_spec s fs exportDir year st levels acc
    constructor
    · rw [g1, f1]
      simp [Bool.and_assoc]
    · rw [g2, f2]
      simp [List.append_assoc]

/-- C7: `run_test` returns True iff for every (state, industry-level) pair —
states drawn from the geography dimension, including the None bucket counted
with `GeoID = '99999'` — the fact-store row count equals the exported CSV's
row count (a missing CSV counting as 0 rows); every mismatching pair is
recorded individually; and the validate CLI exits 0 when `run_test` returns
True and 1 otherwise. -/
theorem c7_validator_verdict (s : Store) (levels : List Nat) (year : Nat)
    (fs : String → Option Nat) (exportDir : String) :
    ((run_test s levels year fs exportDir).1 = true ↔
      ∀ state ∈ fetch_states s, ∀ level ∈ levels,
        count_rows_in_db s year level state =
          count_rows_in_csv fs exportDir year state level)
    ∧ (∀ state level, (state, level) ∈ (run_test s levels year fs exportDir).2 ↔
        state ∈ fetch_states s ∧ level ∈ levels ∧
          count_rows_in_db s year level state ≠
            count_rows_in_csv fs exportDir year state level)
    ∧ (∀ state level, count_rows_in_csv fs exportDir year state level =
        (fs (csvPath exportDir
          (match state with | none => "NotSpecified" | some st => st) level year)).getD 0)
    ∧ (validateExitCode (run_test s levels year fs exportDir).1 = 0 ↔
        (run_test s levels year fs exportDir).1 = true) := by
  obtain ⟨h1, h2⟩ := runTestStates_spec s levels fs exportDir year (fetch_states s) (true, [])
  refine ⟨?_, ?_, ?_, ?_⟩
  · rw [show (run_test s levels year fs exportDir).1 =
        (runTestStates s levels fs exportDir year (fetch_states s) (true, [])).1 from rfl, h1]
    simp [compare_counts, List.all_eq_true]
  · intro state level
    rw [show (run_test s levels year fs exportDir).2 =
        (runTestStates s levels fs exportDir year (fetch_states s) (true, [])).2 from rfl, h2]
    simp only [List.nil_append, List.mem_flatMap, List.mem_map, List.mem_filter]
    constructor
    · rintro ⟨st, hst, l, ⟨hl, hcmp⟩, heq⟩
      cases heq
      refine ⟨hst, hl, ?_⟩
      simpa [compare_counts] using hcmp
    · rintro ⟨hst, hl, hne⟩
      exact ⟨state, hst, level, ⟨hl, by simpa [compare_counts] using hne⟩, rfl⟩
  · intro state level
    rfl
  · cases hb : (run_test s levels year fs exportDir).1 <;> simp [validateExitCode]

/-- C7 witness: over an empty geography dimension every pair trivially
reconciles, so `run_test` passes and the CLI exits 0. -/
theorem c7_witness :
    (run_test { dimZipCode := [], facts := [], nextId := 1 } [2, 5, 6] 2024
      (fun _ => none) "exp").1 = true :=
  (c7_validator_verdict { dimZipCode := [], facts := [], nextId := 1 } [2, 5, 6] 2024
      (fun _ => none) "exp").1.mpr (by simp [fetch_states])

/-! ### C6: export file content and order -/

lemma strLeAux_total : ∀ (as bs : List Char),
    strLeAux as bs = true ∨ strLeAux bs as = true := by
  intro as
  induction as with
  | nil => intro bs; left; rfl
  | cons a as ih =>
    intro bs
    cases bs with
    | nil => right; rfl
    | cons b bs2 =>
      rw [strLeAux, strLeAux]
      by_cases h1 : a.val.toNat < b.val.toNat
      · left; rw [if_pos h1]
      · by_cases h2 : b.val.toNat < a.val.toNat
        · right; rw [if_pos h2]
        · rw [if_neg h1, if_neg h2, if_neg h2, if_neg h1]
          exact ih bs2

lemma strLeAux_trans : ∀ (as bs cs : List Char),
    strLeAux as bs = true → strLeAux bs cs = true → strLeAux as cs = true := by
  intro as
  induction as with
  | nil => intro bs cs _ _; rfl
  | cons a as ih =>
    intro bs cs h1 h2
    cases bs with
    | nil => rw [strLeAux] at h1; exact absurd h1 (by simp)
    | cons b bs2 =>
      cases cs with
      | nil => rw [strLeAux] at h2; exact absurd h2 (by simp)
      | cons c cs2 =>
        rw [strLeAux] at h1 h2 ⊢
        by_cases hab : a.val.toNat < b.val.toNat
        · by_cases hbc : b.val.toNat < c.val.toNat
          · rw [if_pos (by omega)]
          · by_cases hcb : c.val.toNat < b.val.toNat
            · rw [if_neg hbc, if_pos hcb] at h2
              exact absurd h2 (by simp)
            · rw [if_pos (by omega)]
        · by_cases hba : b.val.toNat < a.val.toNat
          · rw [if_neg hab, if_pos hba] at h1
            exact absurd h1 (by simp)
          · rw [if_neg hab, if_neg hba] at h1
            by_cases hbc : b.val.toNat < c.val.toNat
            · rw [if_pos (by omega)]
            · by_cases hcb : c.val.toNat < b.val.toNat
              · rw [if_neg hbc, if_pos hcb] at h2
                exact absurd h2 (by simp)
              · rw [if_neg hbc, if_neg hcb] at h2
                rw [if_neg (by omega), if_neg (by omega)]
                exact ih bs2 cs2 h1 h2

instance : IsTotal ExportRow rowLe :=
  ⟨fun a b => strLeAux_total a.zipcode.data b.zipcode.data⟩

instance : IsTrans ExportRow rowLe :=
  ⟨fun a b c h1 h2 => strLeAux_trans a.zipcode.data b.zipcode.data c.zipcode.data h1 h2⟩

lemma exportLevels_files (s : Store) (year : Nat) (exportDir stateName : String)
    (zipcodes : List String) :
    ∀ (L : List Nat) (acc : CsvOut),
      (exportLevels s year exportDir stateName zipcodes L acc).files =
        acc.files ++ L.map (fun l =>
          { path := csvPath exportDir stateName l year,
            rows := queryRows s zipcodes year l }) := by
  intro L
  induction L with
  | nil => intro acc; simp [exportLevels]
  | cons l rest ih =>
    intro acc
    rw [exportLevels, ih]
    simp

/-- C6: for every state S with at least one ZIP code in the geography
dimension and every configured industry level L, `make_csv` writes the file
`<export_dir>/<S>/US-<S>-census-naics<L>-zip-<year>.csv` containing exactly
the fact rows whose GeoID is among S's ZIP codes, Year equals the target year
and IndustryLevel equals L, projected to the columns Zipcode, NaicsCode,
Establishments, Employees, Payroll, ordered by GeoID ascending. -/
theorem c6_export_file_content_and_order (s : Store) (levels : List Nat) (Y L : Nat)
    (exportDir S : String) (hS : S ≠ "")
    (hz : fetch_zipcodes_for_state s S ≠ []) (hL : L ∈ levels) :
    ∃ out, make_csv s levels Y exportDir (some S) = Except.ok out ∧
      { path := csvPath exportDir S L Y,
        rows := queryRows s (fetch_zipcodes_for_state s S) Y L } ∈ out.files ∧
      (queryRows s (fetch_zipcodes_for_state s S) Y L).Perm
        ((s.facts.filter (fun f => (fetch_zipcodes_for_state s S).contains f.geoId &&
          f.year == Y && f.industryLevel == L)).map exportRowOf) ∧
      List.Sorted rowLe (queryRows s (fetch_zipcodes_for_state s S) Y L) := by
  refine ⟨exportLevels s Y exportDir S (fetch_zipcodes_for_state s S) levels
    { files := [], counts := levels.dedup.map (fun l => (l, 0)), total := 0 },
    ?_, ?_, ?_, ?_⟩
  · rw [make_csv, statesToExport, if_neg hS, makeCsvLoop]
    simp only [if_neg hS, if_neg hz]
    rw [makeCsvLoop]
  · rw [exportLevels_files]
    simp only [List.nil_append, List.mem_map]
    exact ⟨L, hL, rfl⟩
  · exact List.perm_insertionSort rowLe _
  · exact List.sorted_insertionSort rowLe _

/-- The store of the spec scenario: geography rows ("12345","CA"),
("67890","CA") and the two level-2 facts of the scenario. -/
def scenarioStore : Store :=
  { dimZipCode := [{ geoId := "12345", city := none, state := some "CA" },
                   { geoId := "67890", city := none, state := some "CA" }],
    facts := [{ entryId := 1, geoId := "12345", naicsCode := "111", year := 2024,
                establishments := 10, employees := 100, payroll := 5000, industryLevel := 2 },
              { entryId := 2, geoId := "67890", naicsCode := "222", year := 2024,
                establishments := 20, employees := 200, payroll := 10000, industryLevel := 2 }],
    nextId := 3 }

/-- C6 witness: the spec scenario — exporting year 2024 level 2 for "CA"
produces a 2-row CSV with Zipcode values 12345 then 67890 and matching
Establishments/Employees/Payroll. -/
theorem c6_witness :
    (∃ out, make_csv scenarioStore [2, 5, 6] 2024 "exp" (some "CA") = Except.ok out ∧
      { path := csvPath "exp" "CA" 2 2024,
        rows := queryRows scenarioStore (fetch_zipcodes_for_state scenarioStore "CA") 2024 2 } ∈
          out.files ∧
      (queryRows scenarioStore (fetch_zipcodes_for_state scenarioStore "CA") 2024 2).Perm
        ((scenarioStore.facts.filter
          (fun f => (fetch_zipcodes_for_state scenarioStore "CA").contains f.geoId &&
            f.year == 2024 && f.industryLevel == 2)).map exportRowOf) ∧
      List.Sorted rowLe (queryRows scenarioStore
        (fetch_zipcodes_for_state scenarioStore "CA") 2024 2)) ∧
    queryRows scenarioStore (fetch_zipcodes_for_state scenarioStore "CA") 2024 2 =
      [{ zipcode := "12345", naicsCode := "111", establishments := 10,
         employees := 100, payroll := 5000 },
       { zipcode := "67890", naicsCode := "222", establishments := 20,
         employees := 200, payroll := 10000 }] :=
  ⟨c6_export_file_content_and_order scenarioStore [2, 5, 6] 2024 2 "exp" "CA"
      (by decide) (by decide) (by decide),
   by decide⟩

/-! ### C1: partition completeness -/

/-- The ZIP list `make_csv` uses for one state bucket: the fixed sentinel
list for the `NotSpecified` bucket, the geography dimension lookup otherwise. -/
def bucketZips (s : Store) : Option String → List String
  | none => ["99999"]
  | some st => fetch_zipcodes_for_state s st

lemma queryRows_length (s : Store) (zips : List String) (year level : Nat) :
    (queryRows s zips year level).length =
      s.facts.countP (fun f => zips.contains f.geoId && f.year == year &&
        f.industryLevel == level) := by
  unfold queryRows
  rw [(List.perm_insertionSort rowLe _).length_eq, List.length_map,
    List.countP_eq_length_filter]

lemma queryRows_nil (s : Store) (year level : Nat) : queryRows s [] year level = [] := by
  unfold queryRows
  have : s.facts.filter (fun f => List.contains [] f.geoId && f.year == year &&
      f.industryLevel == level) = [] := by
    simp
  rw [this]
  rfl

lemma countP_eq_sum_map {α : Type} (p : α → Bool) (l : List α) :
    l.countP p = (l.map (fun x => if p x then 1 else 0)).sum := by
  induction l with
  | nil => rfl
  | cons x xs ih =>
    rw [List.countP_cons, List.map_cons, List.sum_cons, ih]
    by_cases h : p x = true
    · simp [h]; omega
    · simp [h]

lemma sum_countP_swap {α β : Type} (bs : List β) (fs : List α) (q : β → α → Bool) :
    (bs.map (fun b => fs.countP (q b))).sum =
      (fs.map (fun f => bs.countP (fun b => q b f))).sum := by
  induction fs with
  | nil => simp
  | cons f fs2 ih =>
    simp only [List.countP_cons, List.map_cons, List.sum_cons]
    rw [List.sum_map_add, ← ih, ← countP_eq_sum_map]
    omega

lemma countP_eq_one_of_nodup {L : List Nat} (hnd : L.Nodup) {a : Nat} (ha : a ∈ L) :
    L.countP (fun l => a == l) = 1 := by
  induction L with
  | nil => simp at ha
  | cons x xs ih =>
    rw [List.countP_cons]
    rw [List.nodup_cons] at hnd
    rcases List.mem_cons.mp ha with rfl | hmem
    · have hz : xs.countP (fun l => a == l) = 0 :=
        List.countP_eq_zero.mpr (fun l hl => by
          simp only [beq_iff_eq]
          rintro rfl
          exact hnd.1 hl)
      simp [hz]
    · have hne : ¬(a == x) = true := by
        simp only [beq_iff_eq]
        rintro rfl
        exact hnd.1 hmem
      rw [ih hnd.2 hmem, if_neg hne]

lemma sum_countP_levels {α : Type} (lvl : α → Nat) (p : α → Bool) (fs : List α)
    (L : List Nat) (hnd : L.Nodup) (hcov : ∀ f ∈ fs, p f = true → lvl f ∈ L) :
    (L.map (fun l => fs.countP (fun f => p f && lvl f == l))).sum = fs.countP p := by
  induction fs with
  | nil => simp
  | cons f fs2 ih =>
    simp only [List.countP_cons]
    have hsplit : (L.map (fun l => fs2.countP (fun g => p g && lvl g == l) +
        if (p f && lvl f == l) = true then 1 else 0)).sum =
        (L.map (fun l => fs2.countP (fun g => p g && lvl g == l))).sum +
        (L.map (fun l => if (p f && lvl f == l) = true then 1 else 0)).sum :=
      List.sum_map_add
    rw [hsplit, ih (fun g hg hp => hcov g (List.mem_cons_of_mem f hg) hp)]
    have hone : (L.map (fun l => if (p f && lvl f == l) = true then 1 else 0)).sum =
        if p f = true then 1 else 0 := by
      by_cases hp : p f = true
      · rw [if_pos hp]
        have : (L.map (fun l => if (p f && lvl f == l) = true then 1 else 0)) =
            (L.map (fun l => if (lvl f == l) = true then 1 else 0)) := by
          apply List.map_congr_left
          intro l _
          rw [hp]
          simp
        rw [this, ← countP_eq_sum_map]
        exact countP_eq_one_of_nodup hnd (hcov f (List.mem_cons_self f fs2) hp)
      · rw [if_neg hp]
        have : (L.map (fun l => if (p f && lvl f == l) = true then 1 else 0)) =
            (L.map (fun _ => 0)) := by
          apply List.map_congr_left
          intro l _
          have hfalse : (p f && lvl f == l) = false := by
            rw [Bool.eq_false_iff]
            simp only [ne_eq, Bool.and_eq_true, not_and]
            intro h1
            exact absurd h1 hp
          rw [hfalse]
          simp
        rw [this]
        simp
    rw [hone]

lemma exportLevels_total (s : Store) (year : Nat) (exportDir stateName : String)
    (zipcodes : List String) :
    ∀ (L : List Nat) (acc : CsvOut),
      (exportLevels s year exportDir stateName zipcodes L acc).total =
        acc.total + (L.map (fun l => (queryRows s zipcodes year l).length)).sum := by
  intro L
  induction L with
  | nil => intro acc; simp [exportLevels]
  | cons l rest ih =>
    intro acc
    rw [exportLevels, ih]
    simp
    omega

lemma makeCsvLoop_total (s : Store) (levels : List Nat) (year : Nat) (exportDir : String) :
    ∀ (buckets : List (Option String)) (acc : CsvOut),
      (∀ b ∈ buckets, b ≠ some "") →
      ∃ out, makeCsvLoop s levels year exportDir buckets acc = Except.ok out ∧
        out.total = acc.total + (buckets.map (fun b =>
          (levels.map (fun l => (queryRows s (bucketZips s b) year l).length)).sum)).sum := by
  intro buckets
  induction buckets with
  | nil =>
    intro acc _
    exact ⟨acc, rfl, by simp⟩
  | cons b rest ih =>
    intro acc hne
    have hne2 : ∀ x ∈ rest, x ≠ some "" := fun x hx => hne x (List.mem_cons_of_mem b hx)
    cases b with
    | none =>
      rw [makeCsvLoop]
      obtain ⟨out, hok, htot⟩ := ih
        (exportLevels s year exportDir "NotSpecified" ["99999"] levels acc) hne2
      refine ⟨out, hok, ?_⟩
      rw [htot, exportLevels_total]
      simp only [List.map_cons, List.sum_cons, bucketZips]
      omega
    | some stateName =>
      have hs : stateName ≠ "" := by
        intro hc
        exact hne (some stateName) (List.mem_cons_self _ _) (by rw [hc])
      rw [makeCsvLoop]
      rw [if_neg hs]
      by_cases hz : fetch_zipcodes_for_state s stateName = []
      · rw [if_pos hz]
        obtain ⟨out, hok, htot⟩ := ih acc hne2
        refine ⟨out, hok, ?_⟩
        rw [htot]
        have hzero : (levels.map (fun l =>
            (queryRows s (bucketZips s (some stateName)) year l).length)).sum = 0 := by
          have : ∀ l ∈ levels,
              (queryRows s (bucketZips s (some stateName)) year l).length = 0 := by
            intro l _
            simp only [bucketZips, hz, queryRows_nil, List.length_nil]
          rw [List.map_congr_left this]
          simp
        simp only [List.map_cons, List.sum_cons, hzero]
        omega
      · rw [if_neg hz]
        obtain ⟨out, hok, htot⟩ := ih
          (exportLevels s year exportDir stateName
            (fetch_zipcodes_for_state s stateName) levels acc) hne2
        refine ⟨out, hok, ?_⟩
        rw [htot, exportLevels_total]
        simp only [List.map_cons, List.sum_cons, bucketZips]
        omega

/-- C1: for every year Y, the sum over all (state, industry-level) pairs of
the row counts of the CSV files written by `make_csv` for year Y equals the
total number of fact rows stored for year Y — provided the data-model
invariants of the spec hold: the configured levels are distinct, every fact
row's industry level is among them, every fact row's geography falls into
exactly one state bucket (counting the sentinel 99999 bucket), and no state
value is the empty string. -/
theorem c1_partition_completeness (s : Store) (levels : List Nat) (Y : Nat)
    (exportDir : String)
    (hnd : levels.Nodup)
    (hlv : ∀ f ∈ s.facts, f.year = Y → f.industryLevel ∈ levels)
    (hcap : ∀ f ∈ s.facts, f.year = Y →
      (fetch_states s).countP (fun b => (bucketZips s b).contains f.geoId) = 1)
    (hne : ∀ b ∈ fetch_states s, b ≠ some "") :
    ∃ out, make_csv s levels Y exportDir none = Except.ok out ∧
      (out.files.map (fun f => f.rows.length)).sum =
        s.facts.countP (fun f => f.year == Y) := by
  obtain ⟨out, hok, htot⟩ :=
    makeCsvLoop_total s levels Y exportDir (fetch_states s)
      { files := [], counts := levels.dedup.map (fun l => (l, 0)), total := 0 } hne
  have hok2 : make_csv s levels Y exportDir none = Except.ok out := hok
  have hsum0 : ∀ L : List Nat, sumCounts (L.map (fun l => (l, 0))) = 0 := by
    intro L
    induction L with
    | nil => rfl
    | cons l rest ih => rw [List.map_cons, sumCounts_cons, ih]
  have hinit : CsvInv levels
      { files := [], counts := levels.dedup.map (fun l => (l, 0)), total := 0 } := by
    refine ⟨?_, (hsum0 levels.dedup).symm, rfl⟩
    show List.map Prod.fst (levels.dedup.map (fun l => (l, 0))) = levels.dedup
    rw [List.map_map, show (Prod.fst ∘ fun l : Nat => (l, 0)) = id from rfl, List.map_id]
  have hinv := makeCsvLoop_inv s levels Y exportDir (fetch_states s) _ out hinit hok
  refine ⟨out, hok2, ?_⟩
  rw [← hinv.2.2, htot]
  -- inner sums: one per bucket, over the configured levels
  have hbucket : ∀ b ∈ fetch_states s,
      (levels.map (fun l => (queryRows s (bucketZips s b) Y l).length)).sum =
        s.facts.countP (fun f => (bucketZips s b).contains f.geoId && f.year == Y) := by
    intro b _
    have hq : (levels.map (fun l => (queryRows s (bucketZips s b) Y l).length)) =
        (levels.map (fun l => s.facts.countP
          (fun f => ((bucketZips s b).contains f.geoId && f.year == Y) &&
            f.industryLevel == l))) := by
      apply List.map_congr_left
      intro l _
      rw [queryRows_length]
    rw [hq]
    exact sum_countP_levels (fun f => f.industryLevel)
      (fun f => (bucketZips s b).contains f.geoId && f.year == Y) s.facts levels hnd
      (fun f hf hp => hlv f hf (by
        simp only [Bool.and_eq_true, beq_iff_eq] at hp
        exact hp.2))
  rw [List.map_congr_left hbucket]
  rw [sum_countP_swap (fetch_states s) s.facts
    (fun b f => (bucketZips s b).contains f.geoId && f.year == Y)]
  have hpoint : ∀ f ∈ s.facts,
      (fetch_states s).countP (fun b => (bucketZips s b).contains f.geoId &&
        f.year == Y) = if (f.year == Y) = true then 1 else 0 := by
    intro f hf
    by_cases hY : (f.year == Y) = true
    · rw [if_pos hY]
      have : (fun b => (bucketZips s b).contains f.geoId && f.year == Y) =
          (fun b => (bucketZips s b).contains f.geoId) := by
        funext b
        rw [hY, Bool.and_true]
      rw [this]
      exact hcap f hf (beq_iff_eq.mp hY)
    · rw [if_neg hY]
      refine List.countP_eq_zero.mpr (fun b _ => ?_)
      simp only [Bool.and_eq_true]
      rintro ⟨_, h2⟩
      exact hY h2
  rw [List.map_congr_left hpoint, ← countP_eq_sum_map]
  simp

/-- A store where every fact's geography resolves to exactly one state bucket:
two CA ZIP codes, the sentinel row, and three facts for year 2024. -/
def pcStore : Store :=
  { dimZipCode := [{ geoId := "12345", city := none, state := some "CA" },
                   { geoId := "67890", city := none, state := some "CA" },
                   { geoId := "99999", city := none, state := none }],
    facts := [{ entryId := 1, geoId := "12345", naicsCode := "11", year := 2024,
                establishments := 1, employees := 2, payroll := 3, industryLevel := 2 },
              { entryId := 2, geoId := "67890", naicsCode := "22", year := 2024,
                establishments := 4, employees := 5, payroll := 6, industryLevel := 2 },
              { entryId := 3, geoId := "99999", naicsCode := "33", year := 2024,
                establishments := 7, employees := 8, payroll := 9, industryLevel := 2 }],
    nextId := 4 }

/-- C1 witness: on `pcStore`, the exported row counts over all state buckets
sum to the 3 fact rows stored for 2024. -/
theorem c1_witness :
    ∃ out, make_csv pcStore [2] 2024 "exp" none = Except.ok out ∧
      (out.files.map (fun f => f.rows.length)).sum =
        pcStore.facts.countP (fun f => f.year == 2024) :=
  c1_partition_completeness pcStore [2] 2024 "exp" (by decide) (by decide)
    (by decide) (by decide)

/-! ### C3: idempotence of a population run -/

/-- The number of rows an event inserted. -/
def insCount : Ev → Nat
  | Ev.skippedFailed => 0
  | Ev.response _ _ n => n

/-- A pair is settled for the run: either it is marked failed, or the store
already has its rows, or the resolved response is a 304/empty-200 that
inserts nothing. -/
def settledP (api : String → Nat → Nat → ApiResp) (year : Nat)
    (st : RunState) (i : String) : Prop :=
  (i, year) ∈ st.failed ∨
  data_for_year_and_sector_exists st.store year i = true ∨
  (resolveFetch (api i year) 5 1).2 = 304 ∨
  ((resolveFetch (api i year) 5 1).2 = 200 ∧ (resolveFetch (api i year) 5 1).1.drop 1 = [])

/-- A pair whose rows are present in the store and that is not marked failed:
a subsequent helper call for it is a pure cache hit (status 304). -/
def hitP (year : Nat) (st : RunState) (i : String) : Prop :=
  data_for_year_and_sector_exists st.store year i = true ∧ (i, year) ∉ st.failed

lemma help_facts_mono (api : String → Nat → Nat → ApiResp) (key : String)
    (st : RunState) (i : String) (y : Nat) :
    ∃ new, (get_zip_and_year_help api key st i y).1.store.facts = st.store.facts ++ new := by
  by_cases hmem : (i, y) ∈ st.failed
  · rw [help_of_failed _ _ _ _ _ hmem]
    exact ⟨[], by simp⟩
  · rw [get_zip_and_year_help, if_neg hmem]
    simp only
    split
    · exact ⟨[], by simp⟩
    · split
      · exact ⟨[], by simp⟩
      · exact ⟨_, by rw [foldl_insertBatchOk]⟩

lemma exists_mono {s s2 : Store} (y : Nat) (c : String)
    (h : data_for_year_and_sector_exists s y c = true)
    (hfacts : ∃ new, s2.facts = s.facts ++ new) :
    data_for_year_and_sector_exists s2 y c = true := by
  obtain ⟨new, hn⟩ := hfacts
  unfold data_for_year_and_sector_exists at h ⊢
  rw [hn, List.any_append, h, Bool.true_or]

lemma help_failed_upper (api : String → Nat → Nat → ApiResp) (key : String)
    (st : RunState) (j : String) (y2 : Nat) :
    (get_zip_and_year_help api key st j y2).1.failed ⊆ (j, y2) :: st.failed := by
  by_cases hmem : (j, y2) ∈ st.failed
  · rw [help_of_failed _ _ _ _ _ hmem]
    exact fun x hx => List.mem_cons_of_mem _ hx
  · rw [get_zip_and_year_help, if_neg hmem]
    simp only
    split
    · exact fun x hx => List.mem_cons_of_mem _ hx
    · split
      · intro x hx
        rcases List.mem_insert_iff.mp hx with h | h
        · exact h ▸ List.mem_cons_self _ _
        · exact List.mem_cons_of_mem _ h
      · exact fun x hx => List.mem_cons_of_mem _ hx

lemma settledP_mono (api : String → Nat → Nat → ApiResp) (key : String) (year : Nat)
    (st : RunState) (i j : String) (y2 : Nat) (h : settledP api year st i) :
    settledP api year (get_zip_and_year_help api key st j y2).1 i := by
  rcases h with h | h | h | h
  · exact Or.inl (help_failed_mono api key st j y2 h)
  · exact Or.inr (Or.inl (exists_mono year i h (help_facts_mono api key st j y2)))
  · exact Or.inr (Or.inr (Or.inl h))
  · exact Or.inr (Or.inr (Or.inr h))

lemma hitP_mono (api : String → Nat → Nat → ApiResp) (key : String) (year : Nat)
    (st : RunState) (i : String) (h : hitP year st i) (j : String) (y2 : Nat) :
    hitP year (get_zip_and_year_help api key st j y2).1 i := by
  obtain ⟨hex, hnf⟩ := h
  refine ⟨exists_mono year i hex (help_facts_mono api key st j y2), ?_⟩
  by_cases hji : j = i ∧ y2 = year
  · obtain ⟨rfl, rfl⟩ := hji
    rw [help_of_exists api key st j y2 hnf hex]
    exact hnf
  · intro hmem2
    rcases List.mem_cons.mp (help_failed_upper api key st j y2 hmem2) with h | h
    · rw [Prod.mk.injEq] at h
      exact hji ⟨h.1.symm, h.2.symm⟩
    · exact hnf h

lemma exists_after_batches (s : Store) (year : Nat) (i : String) (lines : List Line)
    (hcons : ∀ l ∈ lines, (strip l.naics) = i) (hne : lines ≠ []) :
    data_for_year_and_sector_exists
      ((batchLoop year lines []).foldl insertBatchOk s) year i = true := by
  rw [foldl_insertBatchOk]
  unfold data_for_year_and_sector_exists
  simp only
  cases lines with
  | nil => exact absurd rfl hne
  | cons l0 rest =>
    have h0 := hcons l0 (List.mem_cons_self l0 rest)
    rw [batchLoop_join]
    simp [List.any_append, assignEntryIds, create_row, h0]

lemma help_establishes (api : String → Nat → Nat → ApiResp) (key : String) (year : Nat)
    (st : RunState) (i : String) (hsec : i ≠ "0")
    (hcons : ∀ l ∈ (resolveFetch (api i year) 5 1).1.drop 1, (strip l.naics) = i) :
    settledP api year (get_zip_and_year_help api key st i year).1 i := by
  by_cases hmem : (i, year) ∈ st.failed
  · left
    rw [help_of_failed _ _ _ _ _ hmem]
    exact hmem
  · by_cases hex : data_for_year_and_sector_exists st.store year i = true
    · right; left
      rw [help_of_exists _ _ _ _ _ hmem hex]
      exact hex
    · have hexf := Bool.eq_false_iff.mpr hex
      have hnrm : normSector i = i := by unfold normSector; rw [if_neg hsec]
      rw [help_of_fetch api key st i year hmem hexf hnrm]
      by_cases h304 : (resolveFetch (api i year) 5 1).2 = 304
      · rw [if_pos h304]
        exact Or.inr (Or.inr (Or.inl h304))
      · rw [if_neg h304]
        by_cases hfail : (resolveFetch (api i year) 5 1).2 = 204 ∨
            (resolveFetch (api i year) 5 1).2 ≠ 200
        · rw [if_pos hfail]
          left
          exact List.mem_insert_self _ _
        · rw [if_neg hfail]
          push_neg at hfail
          by_cases hempty : (resolveFetch (api i year) 5 1).1.drop 1 = []
          · exact Or.inr (Or.inr (Or.inr ⟨hfail.2, hempty⟩))
          · right; left
            exact exists_after_batches st.store year i _ hcons hempty

lemma help_of_settled (api : String → Nat → Nat → ApiResp) (key : String) (year : Nat)
    (st : RunState) (i : String) (hsec : i ≠ "0")
    (h : settledP api year st i) :
    (get_zip_and_year_help api key st i year).1 = st ∧
    insCount (get_zip_and_year_help api key st i year).2 = 0 := by
  by_cases hmem : (i, year) ∈ st.failed
  · rw [help_of_failed _ _ _ _ _ hmem]
    exact ⟨rfl, rfl⟩
  · by_cases hex : data_for_year_and_sector_exists st.store year i = true
    · rw [help_of_exists _ _ _ _ _ hmem hex]
      exact ⟨rfl, rfl⟩
    · have hexf := Bool.eq_false_iff.mpr hex
      have hnrm : normSector i = i := by unfold normSector; rw [if_neg hsec]
      rw [help_of_fetch api key st i year hmem hexf hnrm]
      rcases h with h | h | h | h
      · exact absurd h hmem
      · exact absurd h hex
      · rw [if_pos h]
        exact ⟨rfl, rfl⟩
      · obtain ⟨h200, hempty⟩ := h
        rw [if_neg (by omega), if_neg (by push_neg; exact ⟨by omega, h200⟩)]
        constructor
        · rw [hempty]
          show ({ st with store := List.foldl insertBatchOk st.store (batchLoop year [] []) } :
            RunState) = st
          rw [show batchLoop year [] [] = ([] : List (List DataRow)) from rfl]
          rfl
        · show (rowsOf (resolveFetch (api i year) 5 1).1 year).length = 0
          rw [rowsOf, hempty]
          rfl

lemma help_hit_of_200 (api : String → Nat → Nat → ApiResp) (key : String) (year : Nat)
    (st : RunState) (i : String) (ntw : Bool) (n : Nat) (hsec : i ≠ "0")
    (hcons : ∀ l ∈ (resolveFetch (api i year) 5 1).1.drop 1, (strip l.naics) = i)
    (hev : (get_zip_and_year_help api key st i year).2 = Ev.response 200 ntw n)
    (hn : 0 < n) :
    hitP year (get_zip_and_year_help api key st i year).1 i := by
  by_cases hmem : (i, year) ∈ st.failed
  · rw [help_of_failed _ _ _ _ _ hmem] at hev
    exact absurd hev (by simp)
  · by_cases hex : data_for_year_and_sector_exists st.store year i = true
    · rw [help_of_exists _ _ _ _ _ hmem hex] at hev
      simp at hev
    · have hexf := Bool.eq_false_iff.mpr hex
      have hnrm : normSector i = i := by unfold normSector; rw [if_neg hsec]
      rw [help_of_fetch api key st i year hmem hexf hnrm] at hev ⊢
      by_cases h304 : (resolveFetch (api i year) 5 1).2 = 304
      · rw [if_pos h304] at hev
        simp at hev
      · rw [if_neg h304] at hev ⊢
        by_cases hfail : (resolveFetch (api i year) 5 1).2 = 204 ∨
            (resolveFetch (api i year) 5 1).2 ≠ 200
        · rw [if_pos hfail] at hev
          simp only [Ev.response.injEq] at hev
          omega
        · rw [if_neg hfail] at hev ⊢
          simp only [Ev.response.injEq] at hev
          constructor
          · show data_for_year_and_sector_exists
              ((batchLoop year ((resolveFetch (api i year) 5 1).1.drop 1) []).foldl
                insertBatchOk st.store) year i = true
            refine exists_after_batches st.store year i _ hcons ?_
            intro hc
            rw [rowsOf, hc] at hev
            simp at hev
            omega
          · exact hmem

lemma processIndustries_ne_zero (raw : List String) (industry_levels : List Nat) :
    ∀ i ∈ processIndustries raw industry_levels, i ≠ "0" := by
  intro i hi
  obtain ⟨hmem, _⟩ := List.mem_filter.mp hi
  obtain ⟨c, _, rfl⟩ := List.mem_map.mp hmem
  by_cases h : c = "0"
  · rw [if_pos h]
    decide
  · rw [if_neg h]
    exact h

lemma runYear_cons (api : String → Nat → Nat → ApiResp) (key : String) (year : Nat)
    (st : RunState) (j : String) (rest : List String) :
    runYear api key year st (j :: rest) =
      ((runYear api key year (get_zip_and_year_help api key st j year).1 rest).1,
       (j, (get_zip_and_year_help api key st j year).2) ::
         (runYear api key year (get_zip_and_year_help api key st j year).1 rest).2) := rfl

lemma runYear_settledP_mono (api : String → Nat → Nat → ApiResp) (key : String)
    (year : Nat) :
    ∀ (inds : List String) (st : RunState) (i : String),
      settledP api year st i → settledP api year (runYear api key year st inds).1 i := by
  intro inds
  induction inds with
  | nil => intro st i h; exact h
  | cons j rest ih =>
    intro st i h
    exact ih _ i (settledP_mono api key year st i j year h)

lemma runYear_hitP_mono (api : String → Nat → Nat → ApiResp) (key : String)
    (year : Nat) :
    ∀ (inds : List String) (st : RunState) (i : String),
      hitP year st i → hitP year (runYear api key year st inds).1 i := by
  intro inds
  induction inds with
  | nil => intro st i h; exact h
  | cons j rest ih =>
    intro st i h
    exact ih _ i (hitP_mono api key year st i h j year)

lemma runYear_settles (api : String → Nat → Nat → ApiResp) (key : String) (year : Nat) :
    ∀ (inds : List String) (st : RunState),
      (∀ i ∈ inds, i ≠ "0" ∧
        ∀ l ∈ (resolveFetch (api i year) 5 1).1.drop 1, strip l.naics = i) →
      ∀ i ∈ inds, settledP api year (runYear api key year st inds).1 i := by
  intro inds
  induction inds with
  | nil => intro st _ i hi; exact absurd hi (List.not_mem_nil i)
  | cons j rest ih =>
    intro st hall i hi
    rcases List.mem_cons.mp hi with rfl | hmem
    · have hj := hall i (List.mem_cons_self i rest)
      have hstep := help_establishes api key year st i hj.1 hj.2
      exact runYear_settledP_mono api key year rest _ i hstep
    · exact ih _ (fun x hx => hall x (List.mem_cons_of_mem j hx)) i hmem

lemma runYear_trace_hit (api : String → Nat → Nat → ApiResp) (key : String) (year : Nat) :
    ∀ (inds : List String) (st : RunState),
      (∀ i ∈ inds, i ≠ "0" ∧
        ∀ l ∈ (resolveFetch (api i year) 5 1).1.drop 1, strip l.naics = i) →
      ∀ i ntw n, (i, Ev.response 200 ntw n) ∈ (runYear api key year st inds).2 → 0 < n →
        hitP year (runYear api key year st inds).1 i := by
  intro inds
  induction inds with
  | nil =>
    intro st _ i ntw n hmem _
    exact absurd hmem (List.not_mem_nil _)
  | cons j rest ih =>
    intro st hall i ntw n hmem hn
    rw [runYear_cons] at hmem
    rcases List.mem_cons.mp hmem with heq | hmem2
    · rw [Prod.mk.injEq] at heq
      obtain ⟨rfl, hev⟩ := heq
      have hj := hall i (List.mem_cons_self i rest)
      have hstep := help_hit_of_200 api key year st i ntw n hj.1 hj.2 hev.symm hn
      exact runYear_hitP_mono api key year rest _ i hstep
    · exact ih _ (fun x hx => hall x (List.mem_cons_of_mem j hx)) i ntw n hmem2 hn

lemma runYear_of_noop (api : String → Nat → Nat → ApiResp) (key : String) (year : Nat) :
    ∀ (inds : List String) (st : RunState),
      (∀ i ∈ inds, (get_zip_and_year_help api key st i year).1 = st) →
      (runYear api key year st inds).1 = st ∧
      (runYear api key year st inds).2 =
        inds.map (fun i => (i, (get_zip_and_year_help api key st i year).2)) := by
  intro inds
  induction inds with
  | nil => intro st _; exact ⟨rfl, rfl⟩
  | cons j rest ih =>
    intro st hall
    have hj := hall j (List.mem_cons_self j rest)
    have hrest := ih st (fun x hx => hall x (List.mem_cons_of_mem j hx))
    rw [runYear_cons, hj]
    exact ⟨hrest.1, by rw [List.map_cons, hrest.2]⟩

/-- C3: on get_zip_for_year run twice for the same year with the same
resolved API responses (and responses whose data rows carry the queried NAICS
code), the second run leaves the Fact Store exactly as the first run left it,
performs zero inserts, and for every (industry, year) pair that inserted rows
in the first run the second run is a pure store cache hit: the exists-check
is true, the network call is skipped and status 304 is observed. -/
theorem c3_population_idempotence (api : String → Nat → Nat → ApiResp) (key : String)
    (industry_levels : List Nat) (raw : List String) (Y : Nat) (s0 : Store)
    (hcons : ∀ i ∈ processIndustries raw industry_levels,
      ∀ l ∈ (resolveFetch (api i Y) 5 1).1.drop 1, strip l.naics = i) :
    (get_zip_for_year api key industry_levels raw Y
        (get_zip_for_year api key industry_levels raw Y
          { store := s0, failed := [] }).1).1.store =
      (get_zip_for_year api key industry_levels raw Y
        { store := s0, failed := [] }).1.store ∧
    (∀ p ∈ (get_zip_for_year api key industry_levels raw Y
        (get_zip_for_year api key industry_levels raw Y
          { store := s0, failed := [] }).1).2, insCount p.2 = 0) ∧
    (∀ i ntw n,
      (i, Ev.response 200 ntw n) ∈
        (get_zip_for_year api key industry_levels raw Y { store := s0, failed := [] }).2 →
      0 < n →
      ∀ e, (i, e) ∈ (get_zip_for_year api key industry_levels raw Y
          (get_zip_for_year api key industry_levels raw Y
            { store := s0, failed := [] }).1).2 →
        e = Ev.response 304 false 0) := by
  have hall : ∀ i ∈ processIndustries raw industry_levels, i ≠ "0" ∧
      ∀ l ∈ (resolveFetch (api i Y) 5 1).1.drop 1, strip l.naics = i :=
    fun i hi => ⟨processIndustries_ne_zero raw industry_levels i hi, hcons i hi⟩
  have hsettled : ∀ i ∈ processIndustries raw industry_levels,
      settledP api Y (runYear api key Y { store := s0, failed := [] }
        (processIndustries raw industry_levels)).1 i :=
    runYear_settles api key Y (processIndustries raw industry_levels)
      { store := s0, failed := [] } hall
  have hnoop : ∀ i ∈ processIndustries raw industry_levels,
      (get_zip_and_year_help api key
        (runYear api key Y { store := s0, failed := [] }
          (processIndustries raw industry_levels)).1 i Y).1 =
        (runYear api key Y { store := s0, failed := [] }
          (processIndustries raw industry_levels)).1 ∧
      insCount (get_zip_and_year_help api key
        (runYear api key Y { store := s0, failed := [] }
          (processIndustries raw industry_levels)).1 i Y).2 = 0 :=
    fun i hi => help_of_settled api key Y _ i (hall i hi).1 (hsettled i hi)
  obtain ⟨hstate2, htrace2⟩ :=
    runYear_of_noop api key Y (processIndustries raw industry_levels)
      (runYear api key Y { store := s0, failed := [] }
        (processIndustries raw industry_levels)).1
      (fun i hi => (hnoop i hi).1)
  refine ⟨?_, ?_, ?_⟩
  · show (runYear api key Y (runYear api key Y { store := s0, failed := [] }
        (processIndustries raw industry_levels)).1
        (processIndustries raw industry_levels)).1.store = _
    rw [hstate2]
    rfl
  · intro p hp
    have hp2 : p ∈ (runYear api key Y (runYear api key Y { store := s0, failed := [] }
        (processIndustries raw industry_levels)).1
        (processIndustries raw industry_levels)).2 := hp
    rw [htrace2] at hp2
    obtain ⟨i, hi, hpe⟩ := List.mem_map.mp hp2
    rw [← hpe]
    exact (hnoop i hi).2
  · intro i ntw n hmem hn e he
    have hhit : hitP Y (runYear api key Y { store := s0, failed := [] }
        (processIndustries raw industry_levels)).1 i :=
      runYear_trace_hit api key Y (processIndustries raw industry_levels)
        { store := s0, failed := [] } hall i ntw n hmem hn
    have he2 : (i, e) ∈ (runYear api key Y (runYear api key Y
        { store := s0, failed := [] } (processIndustries raw industry_levels)).1
        (processIndustries raw industry_levels)).2 := he
    rw [htrace2] at he2
    obtain ⟨i2, hi2, heq⟩ := List.mem_map.mp he2
    rw [Prod.mk.injEq] at heq
    obtain ⟨h1, h2⟩ := heq
    subst h1
    rw [← h2]
    rw [help_of_exists api key _ i2 Y hhit.2 hhit.1]

/-- A fetch oracle whose "11" response carries one data row (for NAICS "11")
and which answers 204 for every other industry. -/
def idemApi : String → Nat → Nat → ApiResp :=
  fun i _ _ =>
    if i = "11" then
      ⟨200, [⟨"ZIPCODE", "NAICS2017", 0, 0, 0⟩, ⟨"12345", "11", 1, 2, 3⟩]⟩
    else ⟨204, []⟩

/-- C3 witness: two runs over industries ["11", "22"] — "11" succeeds with one
row, "22" fails with 204 — leave the store identical. -/
theorem c3_witness :
    (get_zip_for_year idemApi "k" [2] ["11", "22"] 2024
        (get_zip_for_year idemApi "k" [2] ["11", "22"] 2024
          { store := { dimZipCode := [], facts := [], nextId := 1 }, failed := [] }).1).1.store =
      (get_zip_for_year idemApi "k" [2] ["11", "22"] 2024
        { store := { dimZipCode := [], facts := [], nextId := 1 }, failed := [] }).1.store :=
  (c3_population_idempotence idemApi "k" [2] ["11", "22"] 2024
    { dimZipCode := [], facts := [], nextId := 1 } (by decide)).1

end CommunityZipcodes
